import Mathlib

/-!
Verification development for the magnetic forward-modelling module of the
harmonica repository (`harmonica/_forward/prism_magnetic.py`).

The module computes the magnetic field generated by right-rectangular prisms
with given magnetization vectors on a set of observation points.  The analytic
per-prism formulas (`choclo.prism.magnetic_field`, `magnetic_e`, `magnetic_n`,
`magnetic_u`) are external collaborators: they are modelled as function
parameters of type `FieldFn` / `ComponentFn`.  Machine floats are modelled by
exact rationals, so "equal within floating-point tolerance" statements become
exact equalities.  Numpy arrays are modelled by `NDArray` (shape plus
row-major data) for the coordinate arrays and by `Array2` (row list plus a
column count, which numpy keeps in the shape even for zero rows) for the prism
and magnetization tables.  The progress-bar collaborator and the `dtype`
selector are orthogonal to every claim and are omitted.
-/

/-- Type of the external full-field analytic primitive
`choclo.prism.magnetic_field`: takes the observation point (easting, northing,
upward), the six prism bounds (west, east, south, north, bottom, top) and the
three magnetization components, and returns the three field components. -/
abbrev FieldFn := ℚ → ℚ → ℚ → ℚ → ℚ → ℚ → ℚ → ℚ → ℚ → ℚ → ℚ → ℚ → ℚ × ℚ × ℚ

/-- Type of the external single-component analytic primitives
`choclo.prism.magnetic_e` / `magnetic_n` / `magnetic_u`. -/
abbrev ComponentFn := ℚ → ℚ → ℚ → ℚ → ℚ → ℚ → ℚ → ℚ → ℚ → ℚ → ℚ → ℚ → ℚ

/-- Model of a numpy ndarray of rationals: a shape together with the
row-major (C-order) element list.  `ravel` of the array is just `data`;
a valid array satisfies `data.length = shape.prod`. -/
structure NDArray where
  shape : List ℕ
  data : List ℚ
deriving DecidableEq

/-- Model of a two-dimensional numpy array (prism table, magnetization
table): the list of rows plus the column count `ncols` (numpy records the
column count in the shape even when there are zero rows). -/
structure Array2 where
  ncols : ℕ
  rows : List (List ℚ)
deriving DecidableEq

/-- Errors raised by the module.  The Python code raises `ValueError` with a
message; each constructor carries exactly the data interpolated into the
corresponding message. -/
inductive PrismError where
  /-- Raised by `np.broadcast` when the coordinate shapes are not mutually
  broadcastable. -/
  | broadcastMismatch : PrismError
  /-- Raised by `_run_sanity_checks` when the number of magnetization vectors
  mismatches the number of prisms; carries both counts. -/
  | shapeMismatchRows (nMagnetization nPrisms : ℕ) : PrismError
  /-- Raised by `_run_sanity_checks` when magnetization vectors do not have
  exactly 3 elements; carries the actual column count. -/
  | shapeMismatchCols (nCols : ℕ) : PrismError
  /-- Raised by `_check_prisms` for a prism whose bounds are inverted;
  carries the offending prism index and dimension (0 = west/east,
  1 = south/north, 2 = bottom/top). -/
  | invalidGeometry (prismIndex dim : ℕ) : PrismError
  /-- Raised by `_get_magnetic_forward_function` for a component name outside
  the valid set; carries the offending name. -/
  | invalidComponent (component : String) : PrismError
deriving DecidableEq

/-- Contribution of one prism row to the full field at one point: the call
`magnetic_field(coordinates[0][l], ..., prisms[m, 0], ..., magnetization[m, 2])`
from the kernel body (`prism_magnetic.py` lines 244-257). -/
def fieldContribution (f : FieldFn) (e n u : ℚ) (p mag : List ℚ) : ℚ × ℚ × ℚ :=
  f e n u (p.getD 0 0) (p.getD 1 0) (p.getD 2 0) (p.getD 3 0) (p.getD 4 0) (p.getD 5 0)
    (mag.getD 0 0) (mag.getD 1 0) (mag.getD 2 0)

/-- Contribution of one prism row to a single field component: the call
`forward_function(...)` from the kernel body (lines 304-317). -/
def componentContribution (g : ComponentFn) (e n u : ℚ) (p mag : List ℚ) : ℚ :=
  g e n u (p.getD 0 0) (p.getD 1 0) (p.getD 2 0) (p.getD 3 0) (p.getD 4 0) (p.getD 5 0)
    (mag.getD 0 0) (mag.getD 1 0) (mag.getD 2 0)

/-- Inner loop of `_jit_prism_magnetic_field` for one observation point `l`:
`for m in range(prisms.shape[0]): b_e[l] += ...; b_n[l] += ...; b_u[l] += ...`
(lines 243-260). -/
def innerFieldLoop (f : FieldFn) (ce cn cu : List ℚ) (prisms mags : List (List ℚ))
    (l : ℕ) (acc : List ℚ × List ℚ × List ℚ) : List ℚ × List ℚ × List ℚ :=
  (List.range prisms.length).foldl
    (fun acc2 m =>
      (acc2.1.set l (acc2.1.getD l 0 +
        (fieldContribution f (ce.getD l 0) (cn.getD l 0) (cu.getD l 0)
          (prisms.getD m []) (mags.getD m [])).1),
       acc2.2.1.set l (acc2.2.1.getD l 0 +
        (fieldContribution f (ce.getD l 0) (cn.getD l 0) (cu.getD l 0)
          (prisms.getD m []) (mags.getD m [])).2.1),
       acc2.2.2.set l (acc2.2.2.getD l 0 +
        (fieldContribution f (ce.getD l 0) (cn.getD l 0) (cu.getD l 0)
          (prisms.getD m []) (mags.getD m [])).2.2))) acc

/-- The kernel `_jit_prism_magnetic_field` (lines 205-263): the double loop
`for l in prange(coordinates[0].size): for m in range(prisms.shape[0]): ...`
accumulating every prism contribution into `b_e[l]`, `b_n[l]`, `b_u[l]`. -/
def _jit_prism_magnetic_field (f : FieldFn) (ce cn cu : List ℚ)
    (prisms mags : List (List ℚ)) (b_e b_n b_u : List ℚ) :
    List ℚ × List ℚ × List ℚ :=
  (List.range ce.length).foldl
    (fun acc l => innerFieldLoop f ce cn cu prisms mags l acc) (b_e, b_n, b_u)

/-- Line 403: `_jit_prism_magnetic_field_serial = jit(nopython=True)(_jit_prism_magnetic_field)`;
`jit` compiles but does not change the function's meaning. -/
def _jit_prism_magnetic_field_serial : FieldFn → List ℚ → List ℚ → List ℚ →
    List (List ℚ) → List (List ℚ) → List ℚ → List ℚ → List ℚ →
    List ℚ × List ℚ × List ℚ :=
  _jit_prism_magnetic_field

/-- Lines 404-406: `jit(nopython=True, parallel=True)` of the same function.
With `parallel=True` the `prange` over observation points partitions the point
indices across workers; each iteration touches only slot `l` of the output
arrays, so the parallel semantics is: every slot `l < coordinates[0].size`
holds the value that running the (shared) loop body for point `l` alone
against the initial arrays leaves in slot `l`, and all other slots keep their
initial values. -/
def _jit_prism_magnetic_field_parallel (f : FieldFn) (ce cn cu : List ℚ)
    (prisms mags : List (List ℚ)) (b_e b_n b_u : List ℚ) :
    List ℚ × List ℚ × List ℚ :=
  ((List.range b_e.length).map (fun l =>
      if l < ce.length then
        (innerFieldLoop f ce cn cu prisms mags l (b_e, b_n, b_u)).1.getD l 0
      else b_e.getD l 0),
   (List.range b_n.length).map (fun l =>
      if l < ce.length then
        (innerFieldLoop f ce cn cu prisms mags l (b_e, b_n, b_u)).2.1.getD l 0
      else b_n.getD l 0),
   (List.range b_u.length).map (fun l =>
      if l < ce.length then
        (innerFieldLoop f ce cn cu prisms mags l (b_e, b_n, b_u)).2.2.getD l 0
      else b_u.getD l 0))

/-- Inner loop of `_jit_prism_magnetic_component` for one observation point:
`for m in range(prisms.shape[0]): result[l] += forward_function(...)`
(lines 303-317). -/
def innerComponentLoop (g : ComponentFn) (ce cn cu : List ℚ)
    (prisms mags : List (List ℚ)) (l : ℕ) (acc : List ℚ) : List ℚ :=
  (List.range prisms.length).foldl
    (fun acc2 m =>
      acc2.set l (acc2.getD l 0 +
        componentContribution g (ce.getD l 0) (cn.getD l 0) (cu.getD l 0)
          (prisms.getD m []) (mags.getD m []))) acc

/-- The kernel `_jit_prism_magnetic_component` (lines 266-320). -/
def _jit_prism_magnetic_component (g : ComponentFn) (ce cn cu : List ℚ)
    (prisms mags : List (List ℚ)) (result : List ℚ) : List ℚ :=
  (List.range ce.length).foldl
    (fun acc l => innerComponentLoop g ce cn cu prisms mags l acc) result

/-- Line 407: serial jit of `_jit_prism_magnetic_component`. -/
def _jit_prism_magnetic_component_serial : ComponentFn → List ℚ → List ℚ →
    List ℚ → List (List ℚ) → List (List ℚ) → List ℚ → List ℚ :=
  _jit_prism_magnetic_component

/-- Lines 408-410: parallel jit of `_jit_prism_magnetic_component`; same
`prange` semantics as for the full-field kernel. -/
def _jit_prism_magnetic_component_parallel (g : ComponentFn) (ce cn cu : List ℚ)
    (prisms mags : List (List ℚ)) (result : List ℚ) : List ℚ :=
  (List.range result.length).map (fun l =>
    if l < ce.length then
      (innerComponentLoop g ce cn cu prisms mags l result).getD l 0
    else result.getD l 0)

/-- Row-wise value of the mask `(west == east) | (south == north) | (bottom == top)`
built from the prism columns (line 352). -/
def zeroVolumeRow (p : List ℚ) : Bool :=
  decide (p.getD 0 0 = p.getD 1 0) || decide (p.getD 2 0 = p.getD 3 0) ||
    decide (p.getD 4 0 = p.getD 5 0)

/-- Row-wise value of the mask `(magnetization == 0).all(axis=1)` (line 354). -/
def allZeroMagRow (mag : List ℚ) : Bool :=
  mag.all (fun x => decide (x = 0))

/-- The boolean column `(west == east) | (south == north) | (bottom == top)`
of line 352, one entry per prism row. -/
def zeroVolumeMask (prisms : Array2) : List Bool :=
  prisms.rows.map zeroVolumeRow

/-- The boolean column `(magnetization == 0).all(axis=1)` of line 354. -/
def nullMagnetizationMask (magnetization : Array2) : List Bool :=
  magnetization.rows.map allZeroMagRow

/-- Boolean-mask selection `rows[mask]`: keep the rows whose mask entry is
true, in order. -/
def maskSelect {α : Type} (rows : List α) (mask : List Bool) : List α :=
  ((rows.zip mask).filter (fun rk => rk.2)).map (fun rk => rk.1)

/-- The filter `_discard_null_prisms` (lines 323-358): mark zero-volume rows,
additionally mark rows with all-zero magnetization
(`null_prisms[(magnetization == 0).all(axis=1)] = True`), then select the
non-null rows of both tables with the negated mask. -/
def _discard_null_prisms (prisms magnetization : Array2) : Array2 × Array2 :=
  let null_prisms :=
    List.zipWith (fun a b => a || b) (zeroVolumeMask prisms)
      (nullMagnetizationMask magnetization)
  let keep := null_prisms.map (fun b => !b)
  (⟨prisms.ncols, maskSelect prisms.rows keep⟩,
   ⟨magnetization.ncols, maskSelect magnetization.rows keep⟩)

/-- Modelled from the spec: dimension check of one prism row used by
`_check_prisms`, which lives in `harmonica/_forward/prism_gravity.py`, a file
that is not part of the sources here.  Spec §4.1: each prism must satisfy
west ≤ east, south ≤ north, bottom ≤ top; a violation is reported with the
offending dimension.  Returns the first violated dimension, if any. -/
def checkPrismRowDim (p : List ℚ) : Option ℕ :=
  if ¬ (p.getD 0 0 ≤ p.getD 1 0) then some 0
  else if ¬ (p.getD 2 0 ≤ p.getD 3 0) then some 1
  else if ¬ (p.getD 4 0 ≤ p.getD 5 0) then some 2
  else none

/-- Modelled from the spec: scan of the prism rows for the first ordering
violation, reporting the offending prism index and dimension (§4.1: raises on
the first violation found, no partial reporting). -/
def checkPrismsFrom : List (List ℚ) → ℕ → Except PrismError Unit
  | [], _ => Except.ok ()
  | p :: rest, i =>
    match checkPrismRowDim p with
    | some d => Except.error (PrismError.invalidGeometry i d)
    | none => checkPrismsFrom rest (i + 1)

/-- Modelled from the spec: `_check_prisms` (imported from
`prism_gravity.py`, not among the sources).  Spec §4.1: verify each prism
satisfies west ≤ east, south ≤ north, bottom ≤ top (equal bounds are legal and
denote a degenerate prism); fail with an InvalidGeometry error identifying the
offending prism index and dimension. -/
def _check_prisms (prisms : Array2) : Except PrismError Unit :=
  checkPrismsFrom prisms.rows 0

/-- The validator `_run_sanity_checks` (lines 361-375): magnetization row
count must equal the prism row count (error reports both counts), the
magnetization column count must be 3 (error reports the actual count), then
the prism geometry is checked. -/
def _run_sanity_checks (prisms magnetization : Array2) : Except PrismError Unit :=
  if magnetization.rows.length ≠ prisms.rows.length then
    Except.error
      (PrismError.shapeMismatchRows magnetization.rows.length prisms.rows.length)
  else if magnetization.ncols ≠ 3 then
    Except.error (PrismError.shapeMismatchCols magnetization.ncols)
  else _check_prisms prisms

/-- The component selector `_get_magnetic_forward_function` (lines 378-399):
any name outside `("easting", "northing", "upward")` raises, otherwise the
dictionary maps the name to the corresponding external primitive.  The three
external primitives are parameters of the model. -/
def _get_magnetic_forward_function (magnetic_e magnetic_n magnetic_u : ComponentFn)
    (component : String) : Except PrismError ComponentFn :=
  if component ≠ "easting" ∧ component ≠ "northing" ∧ component ≠ "upward" then
    Except.error (PrismError.invalidComponent component)
  else if component = "easting" then Except.ok magnetic_e
  else if component = "northing" then Except.ok magnetic_n
  else Except.ok magnetic_u

/-- One step of broadcasting a pair of dimensions, as numpy does it. -/
def broadcastDim (a b : ℕ) : Option ℕ :=
  if a = b then some a else if a = 1 then some b else if b = 1 then some a else none

/-- Broadcast of two reversed shapes (least-significant dimension first). -/
def broadcastRev : List ℕ → List ℕ → Option (List ℕ)
  | [], t => some t
  | s, [] => some s
  | a :: s, b :: t =>
    match broadcastDim a b, broadcastRev s t with
    | some d, some rest => some (d :: rest)
    | _, _ => none

/-- Numpy broadcast of two shapes: align on the right, each dimension pair
must be equal or contain a 1. -/
def broadcastShapes (s t : List ℕ) : Option (List ℕ) :=
  (broadcastRev s.reverse t.reverse).map List.reverse

/-- Shape of `np.broadcast(a, b, c)` (line 74 / line 167). -/
def broadcastShapes3 (s t u : List ℕ) : Option (List ℕ) :=
  match broadcastShapes s t with
  | some st => broadcastShapes st u
  | none => none

/-- The public entry point `prism_magnetic` (lines 18-99): compute the
broadcast output shape, ravel the coordinates, run the sanity checks unless
disabled, discard null prisms, run the requested kernel over zero-initialized
outputs of size `cast.size`, scale by 1e9 (tesla to nanotesla), and reshape to
the broadcast shape.  The prism and magnetization inputs are taken already
coerced to their 2-D row layout (`np.atleast_2d`); the external analytic
primitive is the parameter `magnetic_field`. -/
def prism_magnetic (magnetic_field : FieldFn)
    (coordinates : NDArray × NDArray × NDArray)
    (prisms magnetization : Array2)
    (parallel disable_checks : Bool) :
    Except PrismError (NDArray × NDArray × NDArray) :=
  match broadcastShapes3 coordinates.1.shape coordinates.2.1.shape
      coordinates.2.2.shape with
  | none => Except.error PrismError.broadcastMismatch
  | some castShape =>
    match (if disable_checks then Except.ok () else
        _run_sanity_checks prisms magnetization) with
    | Except.error e => Except.error e
    | Except.ok _ =>
      let pm := _discard_null_prisms prisms magnetization
      let zeros := List.replicate castShape.prod (0 : ℚ)
      let out :=
        if parallel then
          _jit_prism_magnetic_field_parallel magnetic_field
            coordinates.1.data coordinates.2.1.data coordinates.2.2.data
            pm.1.rows pm.2.rows zeros zeros zeros
        else
          _jit_prism_magnetic_field_serial magnetic_field
            coordinates.1.data coordinates.2.1.data coordinates.2.2.data
            pm.1.rows pm.2.rows zeros zeros zeros
      Except.ok
        (⟨castShape, out.1.map (fun x => x * 1000000000)⟩,
         ⟨castShape, out.2.1.map (fun x => x * 1000000000)⟩,
         ⟨castShape, out.2.2.map (fun x => x * 1000000000)⟩)

/-- The public entry point `prism_magnetic_component` (lines 102-202): same
pipeline, except that the forward function is resolved from the component
name (line 173) after the broadcast (line 167) but before the sanity checks
(lines 174-176), and a single output array is produced. -/
def prism_magnetic_component (magnetic_e magnetic_n magnetic_u : ComponentFn)
    (coordinates : NDArray × NDArray × NDArray)
    (prisms magnetization : Array2) (component : String)
    (parallel disable_checks : Bool) :
    Except PrismError NDArray :=
  match broadcastShapes3 coordinates.1.shape coordinates.2.1.shape
      coordinates.2.2.shape with
  | none => Except.error PrismError.broadcastMismatch
  | some castShape =>
    match _get_magnetic_forward_function magnetic_e magnetic_n magnetic_u
        component with
    | Except.error e => Except.error e
    | Except.ok forward_function =>
      match (if disable_checks then Except.ok () else
          _run_sanity_checks prisms magnetization) with
      | Except.error e => Except.error e
      | Except.ok _ =>
        let pm := _discard_null_prisms prisms magnetization
        let zeros := List.replicate castShape.prod (0 : ℚ)
        let result :=
          if parallel then
            _jit_prism_magnetic_component_parallel forward_function
              coordinates.1.data coordinates.2.1.data coordinates.2.2.data
              pm.1.rows pm.2.rows zeros
          else
            _jit_prism_magnetic_component_serial forward_function
              coordinates.1.data coordinates.2.1.data coordinates.2.2.data
              pm.1.rows pm.2.rows zeros
        Except.ok ⟨castShape, result.map (fun x => x * 1000000000)⟩

/-- Specification-side predicate: a (prism, magnetization) row pair is null
when the prism has zero volume or the magnetization vector is all zero. -/
def isNullPair (p mag : List ℚ) : Bool :=
  zeroVolumeRow p || allZeroMagRow mag

/-- Specification-side model: the row-aligned (prism, magnetization) pairs. -/
def prismPairs (prisms magnetization : Array2) : List (List ℚ × List ℚ) :=
  prisms.rows.zip magnetization.rows

/-- Specification-side model: the surviving (non-null) row pairs, in their
original order. -/
def survivingPairs (prisms magnetization : Array2) : List (List ℚ × List ℚ) :=
  (prismPairs prisms magnetization).filter (fun pm => !(isNullPair pm.1 pm.2))

/-- Specification-side value: the plain superposition sum of the external
primitive over a list of (prism, magnetization) pairs at one point, one sum
per field component. -/
def fieldSumAt (f : FieldFn) (e n u : ℚ) (model : List (List ℚ × List ℚ)) :
    ℚ × ℚ × ℚ :=
  ((model.map (fun pm => (fieldContribution f e n u pm.1 pm.2).1)).sum,
   (model.map (fun pm => (fieldContribution f e n u pm.1 pm.2).2.1)).sum,
   (model.map (fun pm => (fieldContribution f e n u pm.1 pm.2).2.2)).sum)

/-- Specification-side value: the superposition sum of a single-component
primitive over a list of (prism, magnetization) pairs at one point. -/
def componentSumAt (g : ComponentFn) (e n u : ℚ)
    (model : List (List ℚ × List ℚ)) : ℚ :=
  (model.map (fun pm => componentContribution g e n u pm.1 pm.2)).sum

/-- Heap model separating the one-dimensional arrays (coordinates, outputs)
from the two-dimensional tables (prisms, magnetization).  Array objects are
cells addressed by their index; this makes numpy's copy/view/in-place-write
behavior explicit so that (non-)mutation of caller arrays can be stated. -/
structure Store where
  oneD : List (List ℚ)
  twoD : List (List (List ℚ))
deriving DecidableEq

/-- Read a one-dimensional array cell. -/
def readVec (s : Store) (i : ℕ) : List ℚ :=
  s.oneD.getD i []

/-- Read a two-dimensional array cell (its row list). -/
def readMat (s : Store) (i : ℕ) : List (List ℚ) :=
  s.twoD.getD i []

/-- Allocate a fresh one-dimensional array, returning its cell index. -/
def allocVec (s : Store) (v : List ℚ) : Store × ℕ :=
  (⟨s.oneD ++ [v], s.twoD⟩, s.oneD.length)

/-- Allocate a fresh two-dimensional array, returning its cell index. -/
def allocMat (s : Store) (v : List (List ℚ)) : Store × ℕ :=
  (⟨s.oneD, s.twoD ++ [v]⟩, s.twoD.length)

/-- Write (in place) a one-dimensional array cell. -/
def writeVec (s : Store) (i : ℕ) (v : List ℚ) : Store :=
  ⟨s.oneD.set i v, s.twoD⟩

/-- Heap-explicit model of `prism_magnetic` (lines 73-99), mirroring its
memory behavior operation by operation: the ravelled coordinates are views of
the caller's arrays and are only read; the boolean-mask selection of
`_discard_null_prisms` (lines 356-357) always copies, so two fresh cells are
allocated for the filtered tables; `np.zeros` (line 85) allocates the three
fresh output arrays; the kernel accumulates into the output cells only
(lines 258-260); `b_e *= 1e9` etc. (lines 96-98) write the output cells in
place.  The caller's cell indices `ice`, `icn`, `icu` (coordinates), `ip`
(prisms), `im` (magnetization) are parameters, together with the shape
metadata that numpy stores outside the data buffers. -/
def prism_magnetic_store (f : FieldFn) (s : Store)
    (ice icn icu ip im : ℕ) (ncolsP ncolsM : ℕ)
    (shapeE shapeN shapeU : List ℕ) (parallel disable_checks : Bool) :
    Except PrismError (Store × ℕ × ℕ × ℕ) :=
  match broadcastShapes3 shapeE shapeN shapeU with
  | none => Except.error PrismError.broadcastMismatch
  | some castShape =>
    match (if disable_checks then Except.ok () else
        _run_sanity_checks ⟨ncolsP, readMat s ip⟩ ⟨ncolsM, readMat s im⟩) with
    | Except.error e => Except.error e
    | Except.ok _ =>
      let pm := _discard_null_prisms ⟨ncolsP, readMat s ip⟩
        ⟨ncolsM, readMat s im⟩
      let s1p := allocMat s pm.1.rows
      let s2p := allocMat s1p.1 pm.2.rows
      let zeros := List.replicate castShape.prod (0 : ℚ)
      let s3p := allocVec s2p.1 zeros
      let s4p := allocVec s3p.1 zeros
      let s5p := allocVec s4p.1 zeros
      let out :=
        if parallel then
          _jit_prism_magnetic_field_parallel f
            (readVec s5p.1 ice) (readVec s5p.1 icn) (readVec s5p.1 icu)
            (readMat s5p.1 s1p.2) (readMat s5p.1 s2p.2)
            (readVec s5p.1 s3p.2) (readVec s5p.1 s4p.2) (readVec s5p.1 s5p.2)
        else
          _jit_prism_magnetic_field_serial f
            (readVec s5p.1 ice) (readVec s5p.1 icn) (readVec s5p.1 icu)
            (readMat s5p.1 s1p.2) (readMat s5p.1 s2p.2)
            (readVec s5p.1 s3p.2) (readVec s5p.1 s4p.2) (readVec s5p.1 s5p.2)
      let s6 := writeVec (writeVec (writeVec s5p.1 s3p.2 out.1) s4p.2 out.2.1)
        s5p.2 out.2.2
      let s7 := writeVec s6 s3p.2 ((readVec s6 s3p.2).map (fun x => x * 1000000000))
      let s8 := writeVec s7 s4p.2 ((readVec s7 s4p.2).map (fun x => x * 1000000000))
      let s9 := writeVec s8 s5p.2 ((readVec s8 s5p.2).map (fun x => x * 1000000000))
      Except.ok (s9, s3p.2, s4p.2, s5p.2)

/-- First component of the external full-field primitive, as a
single-component function. -/
def projE (f : FieldFn) : ComponentFn :=
  fun e n u w ea s no b t me mn mu => (f e n u w ea s no b t me mn mu).1

/-- Second component of the external full-field primitive. -/
def projN (f : FieldFn) : ComponentFn :=
  fun e n u w ea s no b t me mn mu => (f e n u w ea s no b t me mn mu).2.1

/-- Third component of the external full-field primitive. -/
def projU (f : FieldFn) : ComponentFn :=
  fun e n u w ea s no b t me mn mu => (f e n u w ea s no b t me mn mu).2.2

/-- Sum of the per-prism contributions accumulated by the kernel's inner loop
at observation point `l`, written as a plain sum over the prism indices. -/
def kernelPointSum (g : ComponentFn) (ce cn cu : List ℚ)
    (prisms mags : List (List ℚ)) (l : ℕ) : ℚ :=
  ((List.range prisms.length).map (fun m =>
    componentContribution g (ce.getD l 0) (cn.getD l 0) (cu.getD l 0)
      (prisms.getD m []) (mags.getD m []))).sum

/-- Constant external primitive used to exhibit concrete behavior: every
prism contributes (1, 1, 1) tesla at every point. -/
def cexConstField : FieldFn := fun _ _ _ _ _ _ _ _ _ _ _ _ => (1, 1, 1)

/-- Concrete easting coordinate array of shape (1, 3). -/
def cexCoordE : NDArray := ⟨[1, 3], [10, 20, 30]⟩

/-- Concrete northing coordinate array of shape (2, 3), broadcastable with
`cexCoordE` but of a different shape. -/
def cexCoordN : NDArray := ⟨[2, 3], [1, 2, 3, 4, 5, 6]⟩

/-- Concrete upward coordinate array of shape (2, 3). -/
def cexCoordU : NDArray := ⟨[2, 3], [7, 8, 9, 10, 11, 12]⟩

/-- Concrete one-prism table (a unit cube). -/
def cexPrisms : Array2 := ⟨6, [[0, 1, 0, 1, 0, 1]]⟩

/-- Concrete magnetization table for the one-prism table. -/
def cexMags : Array2 := ⟨3, [[1, 0, 0]]⟩

/-- Concrete all-null prism table whose single prism has zero volume
(west = east = 0) but inverted vertical bounds (bottom = 2 > top = 1). -/
def nullBadPrisms : Array2 := ⟨6, [[0, 0, 0, 1, 2, 1]]⟩

/-- Concrete magnetization table for `nullBadPrisms`. -/
def nullBadMags : Array2 := ⟨3, [[1, 2, 3]]⟩

/-- Concrete scalar observation point (numpy shape `()`, one element). -/
def scalarCoord : NDArray := ⟨[], [0]⟩

/-- Concrete initial heap for the mutation theorem: three one-element
coordinate arrays (cells 0, 1, 2) and the caller's prism and magnetization
tables (cells 0 and 1 of the 2-D store). -/
def wStore : Store := ⟨[[5], [6], [7]], [[[0, 1, 0, 1, 0, 1]], [[1, 2, 3]]]⟩

/-- Constant external primitive contributing (1, 2, 3) tesla. -/
def wField : FieldFn := fun _ _ _ _ _ _ _ _ _ _ _ _ => (1, 2, 3)

/-- The heap left by `prism_magnetic_store` on `wStore`: the caller's cells
are untouched; the filtered copies live in fresh 2-D cells 2 and 3, the
scaled outputs in fresh 1-D cells 3, 4, 5. -/
def wStoreFinal : Store :=
  ⟨[[5], [6], [7], [1000000000], [2000000000], [3000000000]],
   [[[0, 1, 0, 1, 0, 1]], [[1, 2, 3]], [[0, 1, 0, 1, 0, 1]], [[1, 2, 3]]]⟩

/-- Success-path value of `prism_magnetic_store`: the heap and the three
fresh output cell indices produced once the broadcast shape is known and the
sanity checks have passed.  The allocation and write pattern is exactly that
of `prism_magnetic_store`. -/
def prism_magnetic_store_run (f : FieldFn) (s : Store)
    (ice icn icu ip im : ℕ) (ncolsP ncolsM : ℕ) (castShape : List ℕ)
    (parallel : Bool) : Store × ℕ × ℕ × ℕ :=
  let pm := _discard_null_prisms ⟨ncolsP, readMat s ip⟩ ⟨ncolsM, readMat s im⟩
  let s1p := allocMat s pm.1.rows
  let s2p := allocMat s1p.1 pm.2.rows
  let zeros := List.replicate castShape.prod (0 : ℚ)
  let s3p := allocVec s2p.1 zeros
  let s4p := allocVec s3p.1 zeros
  let s5p := allocVec s4p.1 zeros
  let out :=
    if parallel then
      _jit_prism_magnetic_field_parallel f
        (readVec s5p.1 ice) (readVec s5p.1 icn) (readVec s5p.1 icu)
        (readMat s5p.1 s1p.2) (readMat s5p.1 s2p.2)
        (readVec s5p.1 s3p.2) (readVec s5p.1 s4p.2) (readVec s5p.1 s5p.2)
    else
      _jit_prism_magnetic_field_serial f
        (readVec s5p.1 ice) (readVec s5p.1 icn) (readVec s5p.1 icu)
        (readMat s5p.1 s1p.2) (readMat s5p.1 s2p.2)
        (readVec s5p.1 s3p.2) (readVec s5p.1 s4p.2) (readVec s5p.1 s5p.2)
  let s6 := writeVec (writeVec (writeVec s5p.1 s3p.2 out.1) s4p.2 out.2.1)
    s5p.2 out.2.2
  let s7 := writeVec s6 s3p.2 ((readVec s6 s3p.2).map (fun x => x * 1000000000))
  let s8 := writeVec s7 s4p.2 ((readVec s7 s4p.2).map (fun x => x * 1000000000))
  let s9 := writeVec s8 s5p.2 ((readVec s8 s5p.2).map (fun x => x * 1000000000))
  (s9, s3p.2, s4p.2, s5p.2)

/-- Heap-explicit model of `prism_magnetic_component` (lines 166-202),
mirroring its memory behavior operation by operation, exactly as
`prism_magnetic_store` does for `prism_magnetic`: the ravelled coordinates
are read-only views of the caller's arrays; the forward function is resolved
from the component name after the broadcast but before the sanity checks;
the boolean-mask selection of `_discard_null_prisms` allocates two fresh
cells for the filtered tables; `np.zeros` (line 180) allocates the fresh
output array; the kernel accumulates into that output cell only (line 304);
`result *= 1e9` (line 201) writes it in place. -/
def prism_magnetic_component_store (magnetic_e magnetic_n magnetic_u
    : ComponentFn) (s : Store) (ice icn icu ip im : ℕ) (ncolsP ncolsM : ℕ)
    (shapeE shapeN shapeU : List ℕ) (component : String)
    (parallel disable_checks : Bool) :
    Except PrismError (Store × ℕ) :=
  match broadcastShapes3 shapeE shapeN shapeU with
  | none => Except.error PrismError.broadcastMismatch
  | some castShape =>
    match _get_magnetic_forward_function magnetic_e magnetic_n magnetic_u
        component with
    | Except.error e => Except.error e
    | Except.ok forward_function =>
      match (if disable_checks then Except.ok () else
          _run_sanity_checks ⟨ncolsP, readMat s ip⟩ ⟨ncolsM, readMat s im⟩) with
      | Except.error e => Except.error e
      | Except.ok _ =>
        let pm := _discard_null_prisms ⟨ncolsP, readMat s ip⟩
          ⟨ncolsM, readMat s im⟩
        let s1p := allocMat s pm.1.rows
        let s2p := allocMat s1p.1 pm.2.rows
        let zeros := List.replicate castShape.prod (0 : ℚ)
        let s3p := allocVec s2p.1 zeros
        let result :=
          if parallel then
            _jit_prism_magnetic_component_parallel forward_function
              (readVec s3p.1 ice) (readVec s3p.1 icn) (readVec s3p.1 icu)
              (readMat s3p.1 s1p.2) (readMat s3p.1 s2p.2) (readVec s3p.1 s3p.2)
          else
            _jit_prism_magnetic_component_serial forward_function
              (readVec s3p.1 ice) (readVec s3p.1 icn) (readVec s3p.1 icu)
              (readMat s3p.1 s1p.2) (readMat s3p.1 s2p.2) (readVec s3p.1 s3p.2)
        let s4 := writeVec s3p.1 s3p.2 result
        let s5 := writeVec s4 s3p.2
          ((readVec s4 s3p.2).map (fun x => x * 1000000000))
        Except.ok (s5, s3p.2)

/-- Success-path value of `prism_magnetic_component_store`: the heap and the
fresh output cell index produced once the broadcast shape is known, the
forward function is resolved and the sanity checks have passed. -/
def prism_magnetic_component_store_run (forward_function : ComponentFn)
    (s : Store) (ice icn icu ip im : ℕ) (ncolsP ncolsM : ℕ)
    (castShape : List ℕ) (parallel : Bool) : Store × ℕ :=
  let pm := _discard_null_prisms ⟨ncolsP, readMat s ip⟩ ⟨ncolsM, readMat s im⟩
  let s1p := allocMat s pm.1.rows
  let s2p := allocMat s1p.1 pm.2.rows
  let zeros := List.replicate castShape.prod (0 : ℚ)
  let s3p := allocVec s2p.1 zeros
  let result :=
    if parallel then
      _jit_prism_magnetic_component_parallel forward_function
        (readVec s3p.1 ice) (readVec s3p.1 icn) (readVec s3p.1 icu)
        (readMat s3p.1 s1p.2) (readMat s3p.1 s2p.2) (readVec s3p.1 s3p.2)
    else
      _jit_prism_magnetic_component_serial forward_function
        (readVec s3p.1 ice) (readVec s3p.1 icn) (readVec s3p.1 icu)
        (readMat s3p.1 s1p.2) (readMat s3p.1 s2p.2) (readVec s3p.1 s3p.2)
  let s4 := writeVec s3p.1 s3p.2 result
  let s5 := writeVec s4 s3p.2
    ((readVec s4 s3p.2).map (fun x => x * 1000000000))
  (s5, s3p.2)

/-- The heap left by `prism_magnetic_component_store` on `wStore` with
component "easting": the caller's cells are untouched; the filtered copies
live in fresh 2-D cells 2 and 3, the scaled output in fresh 1-D cell 3. -/
def wStoreFinalC : Store :=
  ⟨[[5], [6], [7], [1000000000]],
   [[[0, 1, 0, 1, 0, 1]], [[1, 2, 3]], [[0, 1, 0, 1, 0, 1]], [[1, 2, 3]]]⟩

theorem getD_set_self (xs : List ℚ) (i : ℕ) (v : ℚ) (h : i < xs.length) :
    (xs.set i v).getD i 0 = v := by
  simp [List.getD, List.getElem?_set, h]

theorem getD_set_ne (xs : List ℚ) {i j : ℕ} (v : ℚ) (h : j ≠ i) :
    (xs.set i v).getD j 0 = xs.getD j 0 := by
  simp [List.getD, List.getElem?_set, Ne.symm h]

theorem getD_map_lt (f : ℚ → ℚ) (xs : List ℚ) {j : ℕ} (h : j < xs.length) :
    (xs.map f).getD j 0 = f (xs.getD j 0) := by
  simp [List.getD, List.getElem?_map, List.getElem?_eq_getElem, h]

theorem getD_replicate_lt {n j : ℕ} (a : ℚ) (h : j < n) :
    (List.replicate n a).getD j 0 = a := by
  simp [List.getD, List.getElem?_replicate, h]

theorem getD_range_map {α : Type} (f : ℕ → α) (d : α) {n j : ℕ} (h : j < n) :
    ((List.range n).map f).getD j d = f j := by
  simp [List.getD, List.getElem?_map, List.getElem?_range, h]

theorem getD_eq_getElem_lt (xs : List ℚ) {j : ℕ} (h : j < xs.length) :
    xs.getD j 0 = xs[j] := by
  simp [List.getD, List.getElem?_eq_getElem, h]

theorem setAccum_length (inc : ℕ → ℚ) (n l : ℕ) (acc : List ℚ) :
    ((List.range n).foldl (fun a m => a.set l (a.getD l 0 + inc m)) acc).length
      = acc.length := by
  induction n with
  | zero => rfl
  | succ k ih =>
    rw [List.range_succ, List.foldl_append, List.foldl_cons, List.foldl_nil,
      List.length_set]
    exact ih

theorem setAccum_getD (inc : ℕ → ℚ) (n l : ℕ) (acc : List ℚ) (k : ℕ)
    (hk : k < acc.length) :
    ((List.range n).foldl (fun a m => a.set l (a.getD l 0 + inc m)) acc).getD k 0
      = if k = l then acc.getD k 0 + ((List.range n).map inc).sum
        else acc.getD k 0 := by
  induction n with
  | zero => simp
  | succ q ih =>
    rw [List.range_succ, List.foldl_append, List.foldl_cons, List.foldl_nil]
    by_cases hkl : k = l
    · subst hkl
      rw [getD_set_self _ _ _ (by rw [setAccum_length]; exact hk), ih]
      simp [List.sum_append, add_assoc]
    · rw [getD_set_ne _ _ hkl, ih, if_neg hkl, if_neg hkl]

theorem nestedAccum_length (inc2 : ℕ → ℕ → ℚ) (N n : ℕ) (init : List ℚ) :
    ((List.range N).foldl (fun a l =>
        (List.range n).foldl (fun a2 m => a2.set l (a2.getD l 0 + inc2 l m)) a)
      init).length = init.length := by
  induction N with
  | zero => rfl
  | succ k ih =>
    rw [List.range_succ, List.foldl_append, List.foldl_cons, List.foldl_nil]
    rw [setAccum_length, ih]

theorem nestedAccum_getD (inc2 : ℕ → ℕ → ℚ) (N n : ℕ) (init : List ℚ) (k : ℕ)
    (hk : k < init.length) :
    ((List.range N).foldl (fun a l =>
        (List.range n).foldl (fun a2 m => a2.set l (a2.getD l 0 + inc2 l m)) a)
      init).getD k 0
      = init.getD k 0 + if k < N then ((List.range n).map (inc2 k)).sum else 0 := by
  induction N with
  | zero => simp
  | succ q ih =>
    rw [List.range_succ, List.foldl_append, List.foldl_cons, List.foldl_nil]
    rw [setAccum_getD _ _ _ _ _ (by rw [nestedAccum_length]; exact hk)]
    by_cases hkq : k = q
    · subst hkq
      rw [if_pos rfl, ih, if_neg (lt_irrefl k), if_pos (Nat.lt_succ_self k)]
      ring
    · rw [if_neg hkq, ih]
      by_cases hlt : k < q
      · rw [if_pos hlt, if_pos (Nat.lt_succ_of_lt hlt)]
      · rw [if_neg hlt, if_neg (by omega)]

theorem foldl_prod3 {α β γ ι : Type} (sa : α → ι → α) (sb : β → ι → β)
    (sc : γ → ι → γ) (xs : List ι) (a : α) (b : β) (c : γ) :
    xs.foldl (fun t i => (sa t.1 i, sb t.2.1 i, sc t.2.2 i)) (a, b, c)
      = (xs.foldl sa a, xs.foldl sb b, xs.foldl sc c) := by
  induction xs generalizing a b c with
  | nil => rfl
  | cons hd tl ih => simpa using ih (sa a hd) (sb b hd) (sc c hd)

theorem innerFieldLoop_eq (f : FieldFn) (ce cn cu : List ℚ)
    (prisms mags : List (List ℚ)) (l : ℕ) (acc : List ℚ × List ℚ × List ℚ) :
    innerFieldLoop f ce cn cu prisms mags l acc
      = (innerComponentLoop (projE f) ce cn cu prisms mags l acc.1,
         innerComponentLoop (projN f) ce cn cu prisms mags l acc.2.1,
         innerComponentLoop (projU f) ce cn cu prisms mags l acc.2.2) := by
  obtain ⟨a, b, c⟩ := acc
  exact foldl_prod3
    (fun a2 m => a2.set l (a2.getD l 0 +
      (fieldContribution f (ce.getD l 0) (cn.getD l 0) (cu.getD l 0)
        (prisms.getD m []) (mags.getD m [])).1))
    (fun a2 m => a2.set l (a2.getD l 0 +
      (fieldContribution f (ce.getD l 0) (cn.getD l 0) (cu.getD l 0)
        (prisms.getD m []) (mags.getD m [])).2.1))
    (fun a2 m => a2.set l (a2.getD l 0 +
      (fieldContribution f (ce.getD l 0) (cn.getD l 0) (cu.getD l 0)
        (prisms.getD m []) (mags.getD m [])).2.2))
    (List.range prisms.length) a b c

theorem jit_field_eq_components (f : FieldFn) (ce cn cu : List ℚ)
    (prisms mags : List (List ℚ)) (b_e b_n b_u : List ℚ) :
    _jit_prism_magnetic_field f ce cn cu prisms mags b_e b_n b_u
      = (_jit_prism_magnetic_component (projE f) ce cn cu prisms mags b_e,
         _jit_prism_magnetic_component (projN f) ce cn cu prisms mags b_n,
         _jit_prism_magnetic_component (projU f) ce cn cu prisms mags b_u) := by
  unfold _jit_prism_magnetic_field _jit_prism_magnetic_component
  simp only [innerFieldLoop_eq]
  exact foldl_prod3
    (fun a l => innerComponentLoop (projE f) ce cn cu prisms mags l a)
    (fun a l => innerComponentLoop (projN f) ce cn cu prisms mags l a)
    (fun a l => innerComponentLoop (projU f) ce cn cu prisms mags l a)
    (List.range ce.length) b_e b_n b_u

theorem jit_field_parallel_eq_components (f : FieldFn) (ce cn cu : List ℚ)
    (prisms mags : List (List ℚ)) (b_e b_n b_u : List ℚ) :
    _jit_prism_magnetic_field_parallel f ce cn cu prisms mags b_e b_n b_u
      = (_jit_prism_magnetic_component_parallel (projE f) ce cn cu prisms mags b_e,
         _jit_prism_magnetic_component_parallel (projN f) ce cn cu prisms mags b_n,
         _jit_prism_magnetic_component_parallel (projU f) ce cn cu prisms mags b_u) := by
  unfold _jit_prism_magnetic_field_parallel _jit_prism_magnetic_component_parallel
  simp only [innerFieldLoop_eq]

theorem jit_component_length (g : ComponentFn) (ce cn cu : List ℚ)
    (prisms mags : List (List ℚ)) (result : List ℚ) :
    (_jit_prism_magnetic_component g ce cn cu prisms mags result).length
      = result.length := by
  unfold _jit_prism_magnetic_component innerComponentLoop
  exact nestedAccum_length
    (fun l m => componentContribution g (ce.getD l 0) (cn.getD l 0) (cu.getD l 0)
      (prisms.getD m []) (mags.getD m []))
    ce.length prisms.length result

theorem jit_component_getD (g : ComponentFn) (ce cn cu : List ℚ)
    (prisms mags : List (List ℚ)) (result : List ℚ) (k : ℕ)
    (hk : k < result.length) :
    (_jit_prism_magnetic_component g ce cn cu prisms mags result).getD k 0
      = result.getD k 0 +
        if k < ce.length then kernelPointSum g ce cn cu prisms mags k else 0 := by
  unfold _jit_prism_magnetic_component innerComponentLoop
  exact nestedAccum_getD
    (fun l m => componentContribution g (ce.getD l 0) (cn.getD l 0) (cu.getD l 0)
      (prisms.getD m []) (mags.getD m []))
    ce.length prisms.length result k hk

theorem innerComponentLoop_getD_self (g : ComponentFn) (ce cn cu : List ℚ)
    (prisms mags : List (List ℚ)) (l : ℕ) (acc : List ℚ) (hl : l < acc.length) :
    (innerComponentLoop g ce cn cu prisms mags l acc).getD l 0
      = acc.getD l 0 + kernelPointSum g ce cn cu prisms mags l := by
  unfold innerComponentLoop
  rw [setAccum_getD
    (fun m => componentContribution g (ce.getD l 0) (cn.getD l 0) (cu.getD l 0)
      (prisms.getD m []) (mags.getD m []))
    prisms.length l acc l hl]
  rw [if_pos rfl]
  rfl

theorem jit_component_parallel_length (g : ComponentFn) (ce cn cu : List ℚ)
    (prisms mags : List (List ℚ)) (result : List ℚ) :
    (_jit_prism_magnetic_component_parallel g ce cn cu prisms mags result).length
      = result.length := by
  unfold _jit_prism_magnetic_component_parallel
  simp

theorem jit_component_parallel_getD (g : ComponentFn) (ce cn cu : List ℚ)
    (prisms mags : List (List ℚ)) (result : List ℚ) (k : ℕ)
    (hk : k < result.length) :
    (_jit_prism_magnetic_component_parallel g ce cn cu prisms mags result).getD k 0
      = result.getD k 0 +
        if k < ce.length then kernelPointSum g ce cn cu prisms mags k else 0 := by
  unfold _jit_prism_magnetic_component_parallel
  rw [getD_range_map _ _ hk]
  by_cases hc : k < ce.length
  · rw [if_pos hc, if_pos hc, innerComponentLoop_getD_self _ _ _ _ _ _ _ _ hk]
  · rw [if_neg hc, if_neg hc, add_zero]

theorem jit_component_parallel_eq_serial (g : ComponentFn) (ce cn cu : List ℚ)
    (prisms mags : List (List ℚ)) (result : List ℚ) :
    _jit_prism_magnetic_component_parallel g ce cn cu prisms mags result
      = _jit_prism_magnetic_component g ce cn cu prisms mags result := by
  apply List.ext_getElem
  · rw [jit_component_parallel_length, jit_component_length]
  · intro i h1 h2
    have hi : i < result.length := by
      rw [jit_component_parallel_length] at h1
      exact h1
    rw [← getD_eq_getElem_lt _ h1, ← getD_eq_getElem_lt _ h2]
    rw [jit_component_parallel_getD _ _ _ _ _ _ _ _ hi,
      jit_component_getD _ _ _ _ _ _ _ _ hi]

theorem jit_field_parallel_eq_serial (f : FieldFn) (ce cn cu : List ℚ)
    (prisms mags : List (List ℚ)) (b_e b_n b_u : List ℚ) :
    _jit_prism_magnetic_field_parallel f ce cn cu prisms mags b_e b_n b_u
      = _jit_prism_magnetic_field f ce cn cu prisms mags b_e b_n b_u := by
  rw [jit_field_parallel_eq_components, jit_field_eq_components]
  rw [jit_component_parallel_eq_serial, jit_component_parallel_eq_serial,
    jit_component_parallel_eq_serial]

theorem broadcastDim_self (a : ℕ) : broadcastDim a a = some a := by
  unfold broadcastDim
  rw [if_pos rfl]

theorem broadcastRev_self (s : List ℕ) : broadcastRev s s = some s := by
  induction s with
  | nil => rfl
  | cons a t ih =>
    unfold broadcastRev
    rw [broadcastDim_self, ih]

theorem broadcastShapes_self (s : List ℕ) : broadcastShapes s s = some s := by
  unfold broadcastShapes
  rw [broadcastRev_self]
  simp

theorem broadcastShapes3_self (s : List ℕ) : broadcastShapes3 s s s = some s := by
  unfold broadcastShapes3
  rw [broadcastShapes_self]
  exact broadcastShapes_self s

theorem isNullPair_eq (p mag : List ℚ) :
    isNullPair p mag = (zeroVolumeRow p || allZeroMagRow mag) := rfl

theorem maskSelect_zip_filter (ps ms : List (List ℚ)) (h : ms.length = ps.length) :
    maskSelect ps
        ((List.zipWith (fun a b => a || b) (ps.map zeroVolumeRow)
          (ms.map allZeroMagRow)).map (fun b => !b))
      = ((ps.zip ms).filter (fun pm => !(isNullPair pm.1 pm.2))).map Prod.fst
    ∧ maskSelect ms
        ((List.zipWith (fun a b => a || b) (ps.map zeroVolumeRow)
          (ms.map allZeroMagRow)).map (fun b => !b))
      = ((ps.zip ms).filter (fun pm => !(isNullPair pm.1 pm.2))).map Prod.snd := by
  induction ps generalizing ms with
  | nil =>
    cases ms with
    | nil => exact ⟨rfl, rfl⟩
    | cons m tm => simp at h
  | cons p tp ih =>
    cases ms with
    | nil => simp at h
    | cons m tm =>
      have hlen : tm.length = tp.length := by simpa using h
      obtain ⟨ih1, ih2⟩ := ih tm hlen
      constructor
      · cases hb : isNullPair p m with
        | false =>
          simp only [List.map_cons, List.zipWith_cons_cons, List.zip_cons_cons,
            List.filter_cons, isNullPair_eq] at ih1 ⊢
          rw [isNullPair_eq] at hb
          rw [hb]
          simpa [maskSelect, hb] using ih1
        | true =>
          simp only [List.map_cons, List.zipWith_cons_cons, List.zip_cons_cons,
            List.filter_cons, isNullPair_eq] at ih1 ⊢
          rw [isNullPair_eq] at hb
          rw [hb]
          simpa [maskSelect, hb] using ih1
      · cases hb : isNullPair p m with
        | false =>
          simp only [List.map_cons, List.zipWith_cons_cons, List.zip_cons_cons,
            List.filter_cons, isNullPair_eq] at ih2 ⊢
          rw [isNullPair_eq] at hb
          rw [hb]
          simpa [maskSelect, hb] using ih2
        | true =>
          simp only [List.map_cons, List.zipWith_cons_cons, List.zip_cons_cons,
            List.filter_cons, isNullPair_eq] at ih2 ⊢
          rw [isNullPair_eq] at hb
          rw [hb]
          simpa [maskSelect, hb] using ih2

theorem discard_eq_filter (prisms mags : Array2)
    (h : mags.rows.length = prisms.rows.length) :
    _discard_null_prisms prisms mags
      = (⟨prisms.ncols, (survivingPairs prisms mags).map Prod.fst⟩,
         ⟨mags.ncols, (survivingPairs prisms mags).map Prod.snd⟩) := by
  obtain ⟨h1, h2⟩ := maskSelect_zip_filter prisms.rows mags.rows h
  unfold _discard_null_prisms survivingPairs prismPairs
  unfold zeroVolumeMask nullMagnetizationMask
  rw [Prod.mk.injEq, Array2.mk.injEq, Array2.mk.injEq]
  exact ⟨⟨rfl, h1⟩, ⟨rfl, h2⟩⟩

theorem range_map_getD_pairs (g : List ℚ → List ℚ → ℚ)
    (kept : List (List ℚ × List ℚ)) :
    (List.range (kept.map Prod.fst).length).map
        (fun m => g ((kept.map Prod.fst).getD m []) ((kept.map Prod.snd).getD m []))
      = kept.map (fun pm => g pm.1 pm.2) := by
  induction kept with
  | nil => rfl
  | cons hd tl ih =>
    rw [List.map_cons, List.length_cons, List.range_succ_eq_map, List.map_cons,
      List.map_map]
    congr 1

theorem kernelPointSum_filtered (g : ComponentFn) (ce cn cu : List ℚ)
    (prisms mags : Array2) (hrows : mags.rows.length = prisms.rows.length) (l : ℕ) :
    kernelPointSum g ce cn cu (_discard_null_prisms prisms mags).1.rows
        (_discard_null_prisms prisms mags).2.rows l
      = componentSumAt g (ce.getD l 0) (cn.getD l 0) (cu.getD l 0)
          (survivingPairs prisms mags) := by
  rw [discard_eq_filter prisms mags hrows]
  unfold kernelPointSum componentSumAt
  rw [range_map_getD_pairs
    (fun p m => componentContribution g (ce.getD l 0) (cn.getD l 0) (cu.getD l 0) p m)
    (survivingPairs prisms mags)]

theorem prism_magnetic_eq_ok (f : FieldFn) (c1 c2 c3 : NDArray)
    (prisms mags : Array2) (par dc : Bool) (castShape : List ℕ)
    (hb : broadcastShapes3 c1.shape c2.shape c3.shape = some castShape)
    (hchk : (if dc then Except.ok () else _run_sanity_checks prisms mags)
      = Except.ok ()) :
    prism_magnetic f (c1, c2, c3) prisms mags par dc
      = Except.ok
          (⟨castShape,
            (if par then
              _jit_prism_magnetic_field_parallel f c1.data c2.data c3.data
                (_discard_null_prisms prisms mags).1.rows
                (_discard_null_prisms prisms mags).2.rows
                (List.replicate castShape.prod 0)
                (List.replicate castShape.prod 0)
                (List.replicate castShape.prod 0)
            else
              _jit_prism_magnetic_field_serial f c1.data c2.data c3.data
                (_discard_null_prisms prisms mags).1.rows
                (_discard_null_prisms prisms mags).2.rows
                (List.replicate castShape.prod 0)
                (List.replicate castShape.prod 0)
                (List.replicate castShape.prod 0)).1.map (fun x => x * 1000000000)⟩,
           ⟨castShape,
            (if par then
              _jit_prism_magnetic_field_parallel f c1.data c2.data c3.data
                (_discard_null_prisms prisms mags).1.rows
                (_discard_null_prisms prisms mags).2.rows
                (List.replicate castShape.prod 0)
                (List.replicate castShape.prod 0)
                (List.replicate castShape.prod 0)
            else
              _jit_prism_magnetic_field_serial f c1.data c2.data c3.data
                (_discard_null_prisms prisms mags).1.rows
                (_discard_null_prisms prisms mags).2.rows
                (List.replicate castShape.prod 0)
                (List.replicate castShape.prod 0)
                (List.replicate castShape.prod 0)).2.1.map (fun x => x * 1000000000)⟩,
           ⟨castShape,
            (if par then
              _jit_prism_magnetic_field_parallel f c1.data c2.data c3.data
                (_discard_null_prisms prisms mags).1.rows
                (_discard_null_prisms prisms mags).2.rows
                (List.replicate castShape.prod 0)
                (List.replicate castShape.prod 0)
                (List.replicate castShape.prod 0)
            else
              _jit_prism_magnetic_field_serial f c1.data c2.data c3.data
                (_discard_null_prisms prisms mags).1.rows
                (_discard_null_prisms prisms mags).2.rows
                (List.replicate castShape.prod 0)
                (List.replicate castShape.prod 0)
                (List.replicate castShape.prod 0)).2.2.map (fun x => x * 1000000000)⟩) := by
  unfold prism_magnetic
  rw [hb, hchk]

theorem prism_magnetic_broadcast_err (f : FieldFn) (c1 c2 c3 : NDArray)
    (prisms mags : Array2) (par dc : Bool)
    (hb : broadcastShapes3 c1.shape c2.shape c3.shape = none) :
    prism_magnetic f (c1, c2, c3) prisms mags par dc
      = Except.error PrismError.broadcastMismatch := by
  unfold prism_magnetic
  rw [hb]

theorem prism_magnetic_check_err (f : FieldFn) (c1 c2 c3 : NDArray)
    (prisms mags : Array2) (par dc : Bool) (castShape : List ℕ) (e : PrismError)
    (hb : broadcastShapes3 c1.shape c2.shape c3.shape = some castShape)
    (hchk : (if dc then Except.ok () else _run_sanity_checks prisms mags)
      = Except.error e) :
    prism_magnetic f (c1, c2, c3) prisms mags par dc = Except.error e := by
  unfold prism_magnetic
  rw [hb, hchk]

theorem prism_magnetic_component_eq_ok (ge gn gu : ComponentFn)
    (c1 c2 c3 : NDArray) (prisms mags : Array2) (comp : String) (g : ComponentFn)
    (par dc : Bool) (castShape : List ℕ)
    (hb : broadcastShapes3 c1.shape c2.shape c3.shape = some castShape)
    (hsel : _get_magnetic_forward_function ge gn gu comp = Except.ok g)
    (hchk : (if dc then Except.ok () else _run_sanity_checks prisms mags)
      = Except.ok ()) :
    prism_magnetic_component ge gn gu (c1, c2, c3) prisms mags comp par dc
      = Except.ok
          ⟨castShape,
            (if par then
              _jit_prism_magnetic_component_parallel g c1.data c2.data c3.data
                (_discard_null_prisms prisms mags).1.rows
                (_discard_null_prisms prisms mags).2.rows
                (List.replicate castShape.prod 0)
            else
              _jit_prism_magnetic_component_serial g c1.data c2.data c3.data
                (_discard_null_prisms prisms mags).1.rows
                (_discard_null_prisms prisms mags).2.rows
                (List.replicate castShape.prod 0)).map (fun x => x * 1000000000)⟩ := by
  unfold prism_magnetic_component
  rw [hb, hsel, hchk]

theorem prism_magnetic_component_broadcast_err (ge gn gu : ComponentFn)
    (c1 c2 c3 : NDArray) (prisms mags : Array2) (comp : String) (par dc : Bool)
    (hb : broadcastShapes3 c1.shape c2.shape c3.shape = none) :
    prism_magnetic_component ge gn gu (c1, c2, c3) prisms mags comp par dc
      = Except.error PrismError.broadcastMismatch := by
  unfold prism_magnetic_component
  rw [hb]

theorem prism_magnetic_component_sel_err (ge gn gu : ComponentFn)
    (c1 c2 c3 : NDArray) (prisms mags : Array2) (comp : String) (par dc : Bool)
    (castShape : List ℕ) (e : PrismError)
    (hb : broadcastShapes3 c1.shape c2.shape c3.shape = some castShape)
    (hsel : _get_magnetic_forward_function ge gn gu comp = Except.error e) :
    prism_magnetic_component ge gn gu (c1, c2, c3) prisms mags comp par dc
      = Except.error e := by
  unfold prism_magnetic_component
  rw [hb, hsel]

theorem prism_magnetic_component_check_err (ge gn gu : ComponentFn)
    (c1 c2 c3 : NDArray) (prisms mags : Array2) (comp : String) (g : ComponentFn)
    (par dc : Bool) (castShape : List ℕ) (e : PrismError)
    (hb : broadcastShapes3 c1.shape c2.shape c3.shape = some castShape)
    (hsel : _get_magnetic_forward_function ge gn gu comp = Except.ok g)
    (hchk : (if dc then Except.ok () else _run_sanity_checks prisms mags)
      = Except.error e) :
    prism_magnetic_component ge gn gu (c1, c2, c3) prisms mags comp par dc
      = Except.error e := by
  unfold prism_magnetic_component
  rw [hb, hsel, hchk]

theorem fieldSumAt_components (f : FieldFn) (e n u : ℚ)
    (model : List (List ℚ × List ℚ)) :
    fieldSumAt f e n u model
      = (componentSumAt (projE f) e n u model,
         componentSumAt (projN f) e n u model,
         componentSumAt (projU f) e n u model) := rfl

theorem prism_magnetic_component_ok_char (ge gn gu : ComponentFn)
    (c1 c2 c3 : NDArray) (prisms mags : Array2) (comp : String) (g : ComponentFn)
    (par dc : Bool) (out : NDArray)
    (hs2 : c2.shape = c1.shape) (hs3 : c3.shape = c1.shape)
    (hd1 : c1.data.length = c1.shape.prod)
    (hrows : mags.rows.length = prisms.rows.length)
    (hsel : _get_magnetic_forward_function ge gn gu comp = Except.ok g)
    (hok : prism_magnetic_component ge gn gu (c1, c2, c3) prisms mags comp par dc
      = Except.ok out) :
    out.shape = c1.shape ∧ out.data.length = c1.data.length ∧
    ∀ l, l < c1.data.length →
      out.data.getD l 0
        = 1000000000 * componentSumAt g (c1.data.getD l 0) (c2.data.getD l 0)
            (c3.data.getD l 0) (survivingPairs prisms mags) := by
  have hb : broadcastShapes3 c1.shape c2.shape c3.shape = some c1.shape := by
    rw [hs2, hs3]
    exact broadcastShapes3_self c1.shape
  rcases hchk : (if dc then Except.ok () else _run_sanity_checks prisms mags)
    with e | u
  · rw [prism_magnetic_component_check_err ge gn gu c1 c2 c3 prisms mags comp g
      par dc c1.shape e hb hsel hchk] at hok
    exact absurd hok (by simp)
  · cases u
    rw [prism_magnetic_component_eq_ok ge gn gu c1 c2 c3 prisms mags comp g
      par dc c1.shape hb hsel hchk] at hok
    injection hok with hout
    subst hout
    refine ⟨rfl, ?_, ?_⟩
    · cases par
      · simp only [Bool.false_eq_true, if_false, List.length_map,
          _jit_prism_magnetic_component_serial]
        rw [jit_component_length, List.length_replicate, hd1]
      · simp only [if_true, List.length_map]
        rw [jit_component_parallel_length, List.length_replicate, hd1]
    · intro l hl
      have hlprod : l < c1.shape.prod := hd1 ▸ hl
      have hlrep : l < (List.replicate c1.shape.prod (0 : ℚ)).length := by
        rw [List.length_replicate]
        exact hlprod
      cases par
      · simp only [Bool.false_eq_true, if_false, _jit_prism_magnetic_component_serial]
        rw [getD_map_lt _ _ (by rw [jit_component_length]; exact hlrep)]
        rw [jit_component_getD _ _ _ _ _ _ _ _ hlrep]
        rw [getD_replicate_lt _ hlprod, if_pos hl, zero_add]
        rw [kernelPointSum_filtered _ _ _ _ _ _ hrows]
        exact mul_comm _ _
      · simp only [if_true]
        rw [getD_map_lt _ _ (by rw [jit_component_parallel_length]; exact hlrep)]
        rw [jit_component_parallel_getD _ _ _ _ _ _ _ _ hlrep]
        rw [getD_replicate_lt _ hlprod, if_pos hl, zero_add]
        rw [kernelPointSum_filtered _ _ _ _ _ _ hrows]
        exact mul_comm _ _

theorem jit_field_serial_eq (f : FieldFn) (ce cn cu : List ℚ)
    (prisms mags : List (List ℚ)) (b_e b_n b_u : List ℚ) :
    _jit_prism_magnetic_field_serial f ce cn cu prisms mags b_e b_n b_u
      = _jit_prism_magnetic_field f ce cn cu prisms mags b_e b_n b_u := rfl

theorem jit_component_serial_eq (g : ComponentFn) (ce cn cu : List ℚ)
    (prisms mags : List (List ℚ)) (result : List ℚ) :
    _jit_prism_magnetic_component_serial g ce cn cu prisms mags result
      = _jit_prism_magnetic_component g ce cn cu prisms mags result := rfl

theorem scaled_serial_length (g : ComponentFn) (ce cn cu : List ℚ)
    (prisms mags : List (List ℚ)) (size : ℕ) :
    ((_jit_prism_magnetic_component g ce cn cu prisms mags
        (List.replicate size (0 : ℚ))).map (fun x => x * 1000000000)).length
      = size := by
  rw [List.length_map, jit_component_length, List.length_replicate]

theorem scaled_parallel_length (g : ComponentFn) (ce cn cu : List ℚ)
    (prisms mags : List (List ℚ)) (size : ℕ) :
    ((_jit_prism_magnetic_component_parallel g ce cn cu prisms mags
        (List.replicate size (0 : ℚ))).map (fun x => x * 1000000000)).length
      = size := by
  rw [List.length_map, jit_component_parallel_length, List.length_replicate]

theorem scaled_serial_getD (g : ComponentFn) (ce cn cu : List ℚ)
    (prisms mags : Array2) (size l : ℕ)
    (hrows : mags.rows.length = prisms.rows.length)
    (hl : l < size) (hlce : l < ce.length) :
    ((_jit_prism_magnetic_component g ce cn cu
        (_discard_null_prisms prisms mags).1.rows
        (_discard_null_prisms prisms mags).2.rows
        (List.replicate size (0 : ℚ))).map (fun x => x * 1000000000)).getD l 0
      = 1000000000 * componentSumAt g (ce.getD l 0) (cn.getD l 0) (cu.getD l 0)
          (survivingPairs prisms mags) := by
  have hlrep : l < (List.replicate size (0 : ℚ)).length := by
    rw [List.length_replicate]
    exact hl
  rw [getD_map_lt _ _ (by rw [jit_component_length]; exact hlrep)]
  rw [jit_component_getD _ _ _ _ _ _ _ _ hlrep]
  rw [getD_replicate_lt _ hl, if_pos hlce, zero_add]
  rw [kernelPointSum_filtered _ _ _ _ _ _ hrows]
  exact mul_comm _ _

theorem scaled_parallel_getD (g : ComponentFn) (ce cn cu : List ℚ)
    (prisms mags : Array2) (size l : ℕ)
    (hrows : mags.rows.length = prisms.rows.length)
    (hl : l < size) (hlce : l < ce.length) :
    ((_jit_prism_magnetic_component_parallel g ce cn cu
        (_discard_null_prisms prisms mags).1.rows
        (_discard_null_prisms prisms mags).2.rows
        (List.replicate size (0 : ℚ))).map (fun x => x * 1000000000)).getD l 0
      = 1000000000 * componentSumAt g (ce.getD l 0) (cn.getD l 0) (cu.getD l 0)
          (survivingPairs prisms mags) := by
  have hlrep : l < (List.replicate size (0 : ℚ)).length := by
    rw [List.length_replicate]
    exact hl
  rw [getD_map_lt _ _ (by rw [jit_component_parallel_length]; exact hlrep)]
  rw [jit_component_parallel_getD _ _ _ _ _ _ _ _ hlrep]
  rw [getD_replicate_lt _ hl, if_pos hlce, zero_add]
  rw [kernelPointSum_filtered _ _ _ _ _ _ hrows]
  exact mul_comm _ _

theorem prism_magnetic_ok_char (f : FieldFn) (c1 c2 c3 : NDArray)
    (prisms mags : Array2) (par dc : Bool) (out : NDArray × NDArray × NDArray)
    (hs2 : c2.shape = c1.shape) (hs3 : c3.shape = c1.shape)
    (hd1 : c1.data.length = c1.shape.prod)
    (hrows : mags.rows.length = prisms.rows.length)
    (hok : prism_magnetic f (c1, c2, c3) prisms mags par dc = Except.ok out) :
    out.1.shape = c1.shape ∧ out.2.1.shape = c1.shape ∧ out.2.2.shape = c1.shape ∧
    out.1.data.length = c1.data.length ∧ out.2.1.data.length = c1.data.length ∧
    out.2.2.data.length = c1.data.length ∧
    ∀ l, l < c1.data.length →
      out.1.data.getD l 0
        = 1000000000 * (fieldSumAt f (c1.data.getD l 0) (c2.data.getD l 0)
            (c3.data.getD l 0) (survivingPairs prisms mags)).1 ∧
      out.2.1.data.getD l 0
        = 1000000000 * (fieldSumAt f (c1.data.getD l 0) (c2.data.getD l 0)
            (c3.data.getD l 0) (survivingPairs prisms mags)).2.1 ∧
      out.2.2.data.getD l 0
        = 1000000000 * (fieldSumAt f (c1.data.getD l 0) (c2.data.getD l 0)
            (c3.data.getD l 0) (survivingPairs prisms mags)).2.2 := by
  have hb : broadcastShapes3 c1.shape c2.shape c3.shape = some c1.shape := by
    rw [hs2, hs3]
    exact broadcastShapes3_self c1.shape
  rcases hchk : (if dc then Except.ok () else _run_sanity_checks prisms mags)
    with e | u
  · rw [prism_magnetic_check_err f c1 c2 c3 prisms mags par dc c1.shape e hb
      hchk] at hok
    exact absurd hok (by simp)
  · cases u
    rw [prism_magnetic_eq_ok f c1 c2 c3 prisms mags par dc c1.shape hb hchk] at hok
    injection hok with hout
    subst hout
    cases par
    · simp only [Bool.false_eq_true, if_false, jit_field_serial_eq,
        jit_field_eq_components]
      refine ⟨trivial, trivial, trivial, ?_, ?_, ?_, ?_⟩
      · rw [scaled_serial_length, hd1]
      · rw [scaled_serial_length, hd1]
      · rw [scaled_serial_length, hd1]
      · intro l hl
        have hlprod : l < c1.shape.prod := hd1 ▸ hl
        rw [fieldSumAt_components]
        exact ⟨scaled_serial_getD _ _ _ _ _ _ _ _ hrows hlprod hl,
          scaled_serial_getD _ _ _ _ _ _ _ _ hrows hlprod hl,
          scaled_serial_getD _ _ _ _ _ _ _ _ hrows hlprod hl⟩
    · simp only [if_true, jit_field_parallel_eq_components]
      refine ⟨trivial, trivial, trivial, ?_, ?_, ?_, ?_⟩
      · rw [scaled_parallel_length, hd1]
      · rw [scaled_parallel_length, hd1]
      · rw [scaled_parallel_length, hd1]
      · intro l hl
        have hlprod : l < c1.shape.prod := hd1 ▸ hl
        rw [fieldSumAt_components]
        exact ⟨scaled_parallel_getD _ _ _ _ _ _ _ _ hrows hlprod hl,
          scaled_parallel_getD _ _ _ _ _ _ _ _ hrows hlprod hl,
          scaled_parallel_getD _ _ _ _ _ _ _ _ hrows hlprod hl⟩

theorem sel_easting (ge gn gu : ComponentFn) :
    _get_magnetic_forward_function ge gn gu "easting" = Except.ok ge := by
  unfold _get_magnetic_forward_function
  rw [if_neg (by simp), if_pos rfl]

theorem sel_northing (ge gn gu : ComponentFn) :
    _get_magnetic_forward_function ge gn gu "northing" = Except.ok gn := by
  unfold _get_magnetic_forward_function
  rw [if_neg (by simp), if_neg (by decide), if_pos rfl]

theorem sel_upward (ge gn gu : ComponentFn) :
    _get_magnetic_forward_function ge gn gu "upward" = Except.ok gu := by
  unfold _get_magnetic_forward_function
  rw [if_neg (by simp), if_neg (by decide), if_neg (by decide)]

/-- C4: for every fixed input, `prism_magnetic` (and
`prism_magnetic_component`) with `parallel = True` and with `parallel = False`
return the same result: the parallel and serial kernels are the same
accumulation algorithm, differing only in the scheduling of the
observation-point indices. -/
theorem prism_magnetic_parallel_serial_equiv (f : FieldFn)
    (ge gn gu : ComponentFn) (coords : NDArray × NDArray × NDArray)
    (prisms mags : Array2) (comp : String) (dc : Bool) :
    prism_magnetic f coords prisms mags true dc
      = prism_magnetic f coords prisms mags false dc ∧
    prism_magnetic_component ge gn gu coords prisms mags comp true dc
      = prism_magnetic_component ge gn gu coords prisms mags comp false dc := by
  obtain ⟨c1, c2, c3⟩ := coords
  constructor
  · rcases hb : broadcastShapes3 c1.shape c2.shape c3.shape with _ | castShape
    · rw [prism_magnetic_broadcast_err f c1 c2 c3 prisms mags true dc hb,
        prism_magnetic_broadcast_err f c1 c2 c3 prisms mags false dc hb]
    · rcases hchk : (if dc then Except.ok () else _run_sanity_checks prisms mags)
        with e | u
      · rw [prism_magnetic_check_err f c1 c2 c3 prisms mags true dc castShape e
          hb hchk,
          prism_magnetic_check_err f c1 c2 c3 prisms mags false dc castShape e
          hb hchk]
      · cases u
        rw [prism_magnetic_eq_ok f c1 c2 c3 prisms mags true dc castShape hb hchk,
          prism_magnetic_eq_ok f c1 c2 c3 prisms mags false dc castShape hb hchk]
        simp only [if_true, Bool.false_eq_true, if_false]
        rw [jit_field_parallel_eq_serial, jit_field_serial_eq]
  · rcases hb : broadcastShapes3 c1.shape c2.shape c3.shape with _ | castShape
    · rw [prism_magnetic_component_broadcast_err ge gn gu c1 c2 c3 prisms mags
        comp true dc hb,
        prism_magnetic_component_broadcast_err ge gn gu c1 c2 c3 prisms mags
        comp false dc hb]
    · rcases hsel : _get_magnetic_forward_function ge gn gu comp with e | g
      · rw [prism_magnetic_component_sel_err ge gn gu c1 c2 c3 prisms mags comp
          true dc castShape e hb hsel,
          prism_magnetic_component_sel_err ge gn gu c1 c2 c3 prisms mags comp
          false dc castShape e hb hsel]
      · rcases hchk : (if dc then Except.ok () else _run_sanity_checks prisms mags)
          with e | u
        · rw [prism_magnetic_component_check_err ge gn gu c1 c2 c3 prisms mags
            comp g true dc castShape e hb hsel hchk,
            prism_magnetic_component_check_err ge gn gu c1 c2 c3 prisms mags
            comp g false dc castShape e hb hsel hchk]
        · cases u
          rw [prism_magnetic_component_eq_ok ge gn gu c1 c2 c3 prisms mags comp g
            true dc castShape hb hsel hchk,
            prism_magnetic_component_eq_ok ge gn gu c1 c2 c3 prisms mags comp g
            false dc castShape hb hsel hchk]
          simp only [if_true, Bool.false_eq_true, if_false]
          rw [jit_component_parallel_eq_serial, jit_component_serial_eq]

/-- C3: for every valid input, `prism_magnetic_component` with component
"easting" (resp. "northing", "upward") equals the first (resp. second, third)
array returned by `prism_magnetic` on the same coordinates, prisms and
magnetization, assuming the external single-component primitives agree with
the corresponding components of the external full-field primitive. -/
theorem prism_magnetic_component_consistency (f : FieldFn)
    (ge gn gu : ComponentFn) (coords : NDArray × NDArray × NDArray)
    (prisms mags : Array2) (par dc : Bool)
    (he : ∀ e n u w ea s no b t me mn mu,
      ge e n u w ea s no b t me mn mu = (f e n u w ea s no b t me mn mu).1)
    (hn : ∀ e n u w ea s no b t me mn mu,
      gn e n u w ea s no b t me mn mu = (f e n u w ea s no b t me mn mu).2.1)
    (hu : ∀ e n u w ea s no b t me mn mu,
      gu e n u w ea s no b t me mn mu = (f e n u w ea s no b t me mn mu).2.2) :
    prism_magnetic_component ge gn gu coords prisms mags "easting" par dc
      = (prism_magnetic f coords prisms mags par dc).map (fun t => t.1) ∧
    prism_magnetic_component ge gn gu coords prisms mags "northing" par dc
      = (prism_magnetic f coords prisms mags par dc).map (fun t => t.2.1) ∧
    prism_magnetic_component ge gn gu coords prisms mags "upward" par dc
      = (prism_magnetic f coords prisms mags par dc).map (fun t => t.2.2) := by
  have hgE : ge = projE f := by
    funext e n u w ea s no b t me mn mu
    exact he e n u w ea s no b t me mn mu
  have hgN : gn = projN f := by
    funext e n u w ea s no b t me mn mu
    exact hn e n u w ea s no b t me mn mu
  have hgU : gu = projU f := by
    funext e n u w ea s no b t me mn mu
    exact hu e n u w ea s no b t me mn mu
  subst hgE
  subst hgN
  subst hgU
  obtain ⟨c1, c2, c3⟩ := coords
  refine ⟨?_, ?_, ?_⟩
  · rcases hb : broadcastShapes3 c1.shape c2.shape c3.shape with _ | castShape
    · rw [prism_magnetic_component_broadcast_err _ _ _ c1 c2 c3 prisms mags _
        par dc hb, prism_magnetic_broadcast_err f c1 c2 c3 prisms mags par dc hb]
      rfl
    · rcases hchk : (if dc then Except.ok () else _run_sanity_checks prisms mags)
        with e | u
      · rw [prism_magnetic_component_check_err _ _ _ c1 c2 c3 prisms mags _ _
          par dc castShape e hb (sel_easting _ _ _) hchk,
          prism_magnetic_check_err f c1 c2 c3 prisms mags par dc castShape e hb
          hchk]
        rfl
      · cases u
        rw [prism_magnetic_component_eq_ok _ _ _ c1 c2 c3 prisms mags _ _
          par dc castShape hb (sel_easting _ _ _) hchk,
          prism_magnetic_eq_ok f c1 c2 c3 prisms mags par dc castShape hb hchk]
        cases par
        · simp only [Bool.false_eq_true, if_false, jit_field_serial_eq,
            jit_field_eq_components, jit_component_serial_eq, Except.map]
        · simp only [if_true, jit_field_parallel_eq_components, Except.map]
  · rcases hb : broadcastShapes3 c1.shape c2.shape c3.shape with _ | castShape
    · rw [prism_magnetic_component_broadcast_err _ _ _ c1 c2 c3 prisms mags _
        par dc hb, prism_magnetic_broadcast_err f c1 c2 c3 prisms mags par dc hb]
      rfl
    · rcases hchk : (if dc then Except.ok () else _run_sanity_checks prisms mags)
        with e | u
      · rw [prism_magnetic_component_check_err _ _ _ c1 c2 c3 prisms mags _ _
          par dc castShape e hb (sel_northing _ _ _) hchk,
          prism_magnetic_check_err f c1 c2 c3 prisms mags par dc castShape e hb
          hchk]
        rfl
      · cases u
        rw [prism_magnetic_component_eq_ok _ _ _ c1 c2 c3 prisms mags _ _
          par dc castShape hb (sel_northing _ _ _) hchk,
          prism_magnetic_eq_ok f c1 c2 c3 prisms mags par dc castShape hb hchk]
        cases par
        · simp only [Bool.false_eq_true, if_false, jit_field_serial_eq,
            jit_field_eq_components, jit_component_serial_eq, Except.map]
        · simp only [if_true, jit_field_parallel_eq_components, Except.map]
  · rcases hb : broadcastShapes3 c1.shape c2.shape c3.shape with _ | castShape
    · rw [prism_magnetic_component_broadcast_err _ _ _ c1 c2 c3 prisms mags _
        par dc hb, prism_magnetic_broadcast_err f c1 c2 c3 prisms mags par dc hb]
      rfl
    · rcases hchk : (if dc then Except.ok () else _run_sanity_checks prisms mags)
        with e | u
      · rw [prism_magnetic_component_check_err _ _ _ c1 c2 c3 prisms mags _ _
          par dc castShape e hb (sel_upward _ _ _) hchk,
          prism_magnetic_check_err f c1 c2 c3 prisms mags par dc castShape e hb
          hchk]
        rfl
      · cases u
        rw [prism_magnetic_component_eq_ok _ _ _ c1 c2 c3 prisms mags _ _
          par dc castShape hb (sel_upward _ _ _) hchk,
          prism_magnetic_eq_ok f c1 c2 c3 prisms mags par dc castShape hb hchk]
        cases par
        · simp only [Bool.false_eq_true, if_false, jit_field_serial_eq,
            jit_field_eq_components, jit_component_serial_eq, Except.map]
        · simp only [if_true, jit_field_parallel_eq_components, Except.map]

/-- C1: for every list of observation points and every prism/magnetization
model that passes validation, each per-point value returned by
`prism_magnetic` (and `prism_magnetic_component`) equals 1e9 times the sum,
over all surviving (non-null) prisms, of the field contribution the external
analytic primitive returns for that (point, prism, magnetization) triple. -/
theorem prism_magnetic_superposition (f : FieldFn) (ge gn gu : ComponentFn)
    (c1 c2 c3 : NDArray) (prisms mags : Array2) (comp : String) (g : ComponentFn)
    (par dc : Bool) (outF : NDArray × NDArray × NDArray) (outC : NDArray) (l : ℕ)
    (hs2 : c2.shape = c1.shape) (hs3 : c3.shape = c1.shape)
    (hd1 : c1.data.length = c1.shape.prod)
    (hd2 : c2.data.length = c1.shape.prod)
    (hd3 : c3.data.length = c1.shape.prod)
    (hrows : mags.rows.length = prisms.rows.length)
    (hl : l < c1.data.length)
    (hsel : _get_magnetic_forward_function ge gn gu comp = Except.ok g)
    (hokF : prism_magnetic f (c1, c2, c3) prisms mags par dc = Except.ok outF)
    (hokC : prism_magnetic_component ge gn gu (c1, c2, c3) prisms mags comp
      par dc = Except.ok outC) :
    outF.1.data.getD l 0
      = 1000000000 * (fieldSumAt f (c1.data.getD l 0) (c2.data.getD l 0)
          (c3.data.getD l 0) (survivingPairs prisms mags)).1 ∧
    outF.2.1.data.getD l 0
      = 1000000000 * (fieldSumAt f (c1.data.getD l 0) (c2.data.getD l 0)
          (c3.data.getD l 0) (survivingPairs prisms mags)).2.1 ∧
    outF.2.2.data.getD l 0
      = 1000000000 * (fieldSumAt f (c1.data.getD l 0) (c2.data.getD l 0)
          (c3.data.getD l 0) (survivingPairs prisms mags)).2.2 ∧
    outC.data.getD l 0
      = 1000000000 * componentSumAt g (c1.data.getD l 0) (c2.data.getD l 0)
          (c3.data.getD l 0) (survivingPairs prisms mags) := by
  obtain ⟨-, -, -, -, -, -, hels⟩ :=
    prism_magnetic_ok_char f c1 c2 c3 prisms mags par dc outF hs2 hs3 hd1 hrows
      hokF
  obtain ⟨he1, he2, he3⟩ := hels l hl
  obtain ⟨-, -, helC⟩ :=
    prism_magnetic_component_ok_char ge gn gu c1 c2 c3 prisms mags comp g par dc
      outC hs2 hs3 hd1 hrows hsel hokC
  exact ⟨he1, he2, he3, helC l hl⟩

theorem prism_magnetic_superposition_witness :
    prism_magnetic wField
        (⟨[2], [1, 2]⟩, ⟨[2], [3, 4]⟩, ⟨[2], [5, 6]⟩) cexPrisms cexMags
        false false
      = Except.ok
          (⟨[2], [1000000000, 1000000000]⟩,
           ⟨[2], [2000000000, 2000000000]⟩,
           ⟨[2], [3000000000, 3000000000]⟩) ∧
    prism_magnetic_component (projE wField) (projN wField) (projU wField)
        (⟨[2], [1, 2]⟩, ⟨[2], [3, 4]⟩, ⟨[2], [5, 6]⟩) cexPrisms cexMags
        "easting" false false
      = Except.ok ⟨[2], [1000000000, 1000000000]⟩ ∧
    ((1000000000 : ℚ)
        = 1000000000 * (fieldSumAt wField 1 3 5 (survivingPairs cexPrisms cexMags)).1 ∧
      (2000000000 : ℚ)
        = 1000000000 * (fieldSumAt wField 1 3 5 (survivingPairs cexPrisms cexMags)).2.1 ∧
      (3000000000 : ℚ)
        = 1000000000 * (fieldSumAt wField 1 3 5 (survivingPairs cexPrisms cexMags)).2.2 ∧
      (1000000000 : ℚ)
        = 1000000000 * componentSumAt (projE wField) 1 3 5
            (survivingPairs cexPrisms cexMags)) := by
  have hokF : prism_magnetic wField
      (⟨[2], [1, 2]⟩, ⟨[2], [3, 4]⟩, ⟨[2], [5, 6]⟩) cexPrisms cexMags
      false false
      = Except.ok
          (⟨[2], [1000000000, 1000000000]⟩,
           ⟨[2], [2000000000, 2000000000]⟩,
           ⟨[2], [3000000000, 3000000000]⟩) := by
    norm_num [prism_magnetic, wField, cexPrisms, cexMags, broadcastShapes3,
      broadcastShapes, broadcastRev, broadcastDim, _run_sanity_checks,
      _check_prisms, checkPrismsFrom, checkPrismRowDim, _discard_null_prisms,
      zeroVolumeMask, nullMagnetizationMask, zeroVolumeRow, allZeroMagRow,
      maskSelect, _jit_prism_magnetic_field_serial, _jit_prism_magnetic_field,
      innerFieldLoop, fieldContribution, List.range_succ, List.getD]
    exact ⟨rfl, rfl, rfl⟩
  have hokC : prism_magnetic_component (projE wField) (projN wField)
      (projU wField) (⟨[2], [1, 2]⟩, ⟨[2], [3, 4]⟩, ⟨[2], [5, 6]⟩) cexPrisms
      cexMags "easting" false false
      = Except.ok ⟨[2], [1000000000, 1000000000]⟩ := by
    norm_num [prism_magnetic_component, wField, projE, cexPrisms, cexMags,
      broadcastShapes3, broadcastShapes, broadcastRev, broadcastDim,
      _get_magnetic_forward_function, _run_sanity_checks, _check_prisms,
      checkPrismsFrom, checkPrismRowDim, _discard_null_prisms, zeroVolumeMask,
      nullMagnetizationMask, zeroVolumeRow, allZeroMagRow, maskSelect,
      _jit_prism_magnetic_component_serial, _jit_prism_magnetic_component,
      innerComponentLoop, componentContribution, List.range_succ, List.getD]
    rfl
  exact ⟨hokF, hokC,
    prism_magnetic_superposition wField (projE wField) (projN wField)
      (projU wField) ⟨[2], [1, 2]⟩ ⟨[2], [3, 4]⟩ ⟨[2], [5, 6]⟩ cexPrisms cexMags
      "easting" (projE wField) false false
      (⟨[2], [1000000000, 1000000000]⟩,
       ⟨[2], [2000000000, 2000000000]⟩,
       ⟨[2], [3000000000, 3000000000]⟩)
      ⟨[2], [1000000000, 1000000000]⟩ 0 rfl rfl rfl rfl rfl rfl
      (by norm_num) (sel_easting _ _ _) hokF hokC⟩

/-- C2 counterexample: with mutually broadcastable but differently shaped
coordinate arrays — easting of shape (1, 3), northing and upward of shape
(2, 3) — and the constant external primitive contributing (1, 1, 1),
`prism_magnetic` returns arrays of the broadcast shape (2, 3) whose last
three entries are 0, although the claim requires every element to be the
field at the corresponding broadcast coordinate triple, which here is
1e9 * 1 ≠ 0 at every position (in particular at flat position 3, i.e. grid
position (1, 0), whose broadcast coordinates are easting 10, northing 4,
upward 10). -/
theorem prism_magnetic_broadcast_claim_counterexample :
    prism_magnetic cexConstField (cexCoordE, cexCoordN, cexCoordU) cexPrisms
        cexMags false false
      = Except.ok
          (⟨[2, 3], [1000000000, 1000000000, 1000000000, 0, 0, 0]⟩,
           ⟨[2, 3], [1000000000, 1000000000, 1000000000, 0, 0, 0]⟩,
           ⟨[2, 3], [1000000000, 1000000000, 1000000000, 0, 0, 0]⟩) ∧
    [1000000000, 1000000000, 1000000000, 0, 0, 0].getD 3 (0 : ℚ) = 0 ∧
    1000000000 * (fieldSumAt cexConstField 10 4 10
        (survivingPairs cexPrisms cexMags)).1 ≠ 0 := by
  refine ⟨?_, rfl, ?_⟩
  · norm_num [prism_magnetic, cexConstField, cexCoordE, cexCoordN, cexCoordU,
      cexPrisms, cexMags, broadcastShapes3, broadcastShapes, broadcastRev,
      broadcastDim, _run_sanity_checks, _check_prisms, checkPrismsFrom,
      checkPrismRowDim, _discard_null_prisms, zeroVolumeMask,
      nullMagnetizationMask, zeroVolumeRow, allZeroMagRow, maskSelect,
      _jit_prism_magnetic_field_serial, _jit_prism_magnetic_field,
      innerFieldLoop, fieldContribution, List.range_succ, List.getD]
    rfl
  · norm_num [fieldSumAt, survivingPairs, prismPairs, isNullPair, zeroVolumeRow,
      allZeroMagRow, fieldContribution, cexConstField, cexPrisms, cexMags,
      List.getD]

/-- C2 amended: when the three coordinate arrays have the same shape (in
particular whenever the caller has already broadcast them), the arrays
returned by `prism_magnetic` and `prism_magnetic_component` have exactly that
common (broadcast) shape and every element is 1e9 times the field of the
surviving prisms evaluated at the corresponding coordinate triple.  For
genuinely different (merely broadcastable) shapes the code allocates the
broadcast shape but fills only the first `easting.size` positions, from
position-wise rather than broadcast-resolved triples. -/
theorem prism_magnetic_equal_shape_output (f : FieldFn) (ge gn gu : ComponentFn)
    (c1 c2 c3 : NDArray) (prisms mags : Array2) (comp : String) (g : ComponentFn)
    (par dc : Bool) (outF : NDArray × NDArray × NDArray) (outC : NDArray)
    (hs2 : c2.shape = c1.shape) (hs3 : c3.shape = c1.shape)
    (hd1 : c1.data.length = c1.shape.prod)
    (hd2 : c2.data.length = c1.shape.prod)
    (hd3 : c3.data.length = c1.shape.prod)
    (hrows : mags.rows.length = prisms.rows.length)
    (hsel : _get_magnetic_forward_function ge gn gu comp = Except.ok g)
    (hokF : prism_magnetic f (c1, c2, c3) prisms mags par dc = Except.ok outF)
    (hokC : prism_magnetic_component ge gn gu (c1, c2, c3) prisms mags comp
      par dc = Except.ok outC) :
    outF.1.shape = c1.shape ∧ outF.2.1.shape = c1.shape ∧
    outF.2.2.shape = c1.shape ∧ outC.shape = c1.shape ∧
    outF.1.data.length = c1.data.length ∧ outF.2.1.data.length = c1.data.length ∧
    outF.2.2.data.length = c1.data.length ∧ outC.data.length = c1.data.length ∧
    ∀ l, l < c1.data.length →
      outF.1.data.getD l 0
        = 1000000000 * (fieldSumAt f (c1.data.getD l 0) (c2.data.getD l 0)
            (c3.data.getD l 0) (survivingPairs prisms mags)).1 ∧
      outF.2.1.data.getD l 0
        = 1000000000 * (fieldSumAt f (c1.data.getD l 0) (c2.data.getD l 0)
            (c3.data.getD l 0) (survivingPairs prisms mags)).2.1 ∧
      outF.2.2.data.getD l 0
        = 1000000000 * (fieldSumAt f (c1.data.getD l 0) (c2.data.getD l 0)
            (c3.data.getD l 0) (survivingPairs prisms mags)).2.2 ∧
      outC.data.getD l 0
        = 1000000000 * componentSumAt g (c1.data.getD l 0) (c2.data.getD l 0)
            (c3.data.getD l 0) (survivingPairs prisms mags) := by
  obtain ⟨hsh1, hsh2, hsh3, hlen1, hlen2, hlen3, hels⟩ :=
    prism_magnetic_ok_char f c1 c2 c3 prisms mags par dc outF hs2 hs3 hd1 hrows
      hokF
  obtain ⟨hshC, hlenC, helsC⟩ :=
    prism_magnetic_component_ok_char ge gn gu c1 c2 c3 prisms mags comp g par dc
      outC hs2 hs3 hd1 hrows hsel hokC
  refine ⟨hsh1, hsh2, hsh3, hshC, hlen1, hlen2, hlen3, hlenC, ?_⟩
  intro l hl
  obtain ⟨he1, he2, he3⟩ := hels l hl
  exact ⟨he1, he2, he3, helsC l hl⟩

theorem prism_magnetic_equal_shape_output_witness :
    prism_magnetic wField
        (⟨[2], [1, 2]⟩, ⟨[2], [3, 4]⟩, ⟨[2], [5, 6]⟩) cexPrisms cexMags
        true false
      = Except.ok
          (⟨[2], [1000000000, 1000000000]⟩,
           ⟨[2], [2000000000, 2000000000]⟩,
           ⟨[2], [3000000000, 3000000000]⟩) ∧
    prism_magnetic_component (projE wField) (projN wField) (projU wField)
        (⟨[2], [1, 2]⟩, ⟨[2], [3, 4]⟩, ⟨[2], [5, 6]⟩) cexPrisms cexMags
        "northing" true false
      = Except.ok ⟨[2], [2000000000, 2000000000]⟩ ∧
    ([2] : List ℕ) = [2] ∧
    ((2000000000 : ℚ)
      = 1000000000 * (fieldSumAt wField 2 4 6 (survivingPairs cexPrisms cexMags)).2.1 ∧
     (2000000000 : ℚ)
      = 1000000000 * componentSumAt (projN wField) 2 4 6
          (survivingPairs cexPrisms cexMags)) := by
  have hokF : prism_magnetic wField
      (⟨[2], [1, 2]⟩, ⟨[2], [3, 4]⟩, ⟨[2], [5, 6]⟩) cexPrisms cexMags
      true false
      = Except.ok
          (⟨[2], [1000000000, 1000000000]⟩,
           ⟨[2], [2000000000, 2000000000]⟩,
           ⟨[2], [3000000000, 3000000000]⟩) := by
    norm_num [prism_magnetic, wField, cexPrisms, cexMags, broadcastShapes3,
      broadcastShapes, broadcastRev, broadcastDim, _run_sanity_checks,
      _check_prisms, checkPrismsFrom, checkPrismRowDim, _discard_null_prisms,
      zeroVolumeMask, nullMagnetizationMask, zeroVolumeRow, allZeroMagRow,
      maskSelect, _jit_prism_magnetic_field_parallel, innerFieldLoop,
      fieldContribution, List.range_succ, List.getD]
  have hchk0 : (if (false : Bool) then Except.ok ()
      else _run_sanity_checks cexPrisms cexMags) = Except.ok () := by
    norm_num [_run_sanity_checks, _check_prisms, checkPrismsFrom,
      checkPrismRowDim, cexPrisms, cexMags, List.getD]
  have hokC : prism_magnetic_component (projE wField) (projN wField)
      (projU wField) (⟨[2], [1, 2]⟩, ⟨[2], [3, 4]⟩, ⟨[2], [5, 6]⟩) cexPrisms
      cexMags "northing" true false
      = Except.ok ⟨[2], [2000000000, 2000000000]⟩ := by
    rw [prism_magnetic_component_eq_ok (projE wField) (projN wField)
      (projU wField) ⟨[2], [1, 2]⟩ ⟨[2], [3, 4]⟩ ⟨[2], [5, 6]⟩ cexPrisms cexMags
      "northing" (projN wField) true false [2] rfl (sel_northing _ _ _) hchk0]
    norm_num [projN, wField, cexPrisms, cexMags, _discard_null_prisms,
      zeroVolumeMask, nullMagnetizationMask, zeroVolumeRow, allZeroMagRow,
      maskSelect, _jit_prism_magnetic_component_parallel, innerComponentLoop,
      componentContribution, List.range_succ, List.getD]
  have happ := prism_magnetic_equal_shape_output wField (projE wField)
    (projN wField) (projU wField) ⟨[2], [1, 2]⟩ ⟨[2], [3, 4]⟩ ⟨[2], [5, 6]⟩
    cexPrisms cexMags "northing" (projN wField) true false
    (⟨[2], [1000000000, 1000000000]⟩,
     ⟨[2], [2000000000, 2000000000]⟩,
     ⟨[2], [3000000000, 3000000000]⟩)
    ⟨[2], [2000000000, 2000000000]⟩ rfl rfl rfl rfl rfl rfl
    (sel_northing _ _ _) hokF hokC
  obtain ⟨hsh1, -, -, -, -, -, -, -, hels⟩ := happ
  obtain ⟨-, he2, -, heC⟩ := hels 1 (by norm_num)
  exact ⟨hokF, hokC, hsh1, he2, heC⟩

theorem keep_pred_eq (p m : List ℚ) :
    (decide (p.getD 0 0 ≠ p.getD 1 0) && decide (p.getD 2 0 ≠ p.getD 3 0) &&
      decide (p.getD 4 0 ≠ p.getD 5 0) && !(m.all (fun x => decide (x = 0))))
      = !(isNullPair p m) := by
  simp only [isNullPair, zeroVolumeRow, allZeroMagRow, Bool.not_or, decide_not]

/-- C5: the null-prism filter keeps exactly the rows whose prism has
west ≠ east, south ≠ north and bottom ≠ top and whose magnetization vector is
not all-zero; the surviving rows appear in their original relative order
(they form sublists of the inputs) and the i-th surviving prism is still
paired with the i-th surviving magnetization vector (both outputs are the two
projections of one filtered list of pairs). -/
theorem discard_null_prisms_spec (prisms mags : Array2)
    (hrows : mags.rows.length = prisms.rows.length) :
    (_discard_null_prisms prisms mags).1.rows
      = ((prismPairs prisms mags).filter (fun pm =>
            decide (pm.1.getD 0 0 ≠ pm.1.getD 1 0) &&
            decide (pm.1.getD 2 0 ≠ pm.1.getD 3 0) &&
            decide (pm.1.getD 4 0 ≠ pm.1.getD 5 0) &&
            !(pm.2.all (fun x => decide (x = 0))))).map Prod.fst ∧
    (_discard_null_prisms prisms mags).2.rows
      = ((prismPairs prisms mags).filter (fun pm =>
            decide (pm.1.getD 0 0 ≠ pm.1.getD 1 0) &&
            decide (pm.1.getD 2 0 ≠ pm.1.getD 3 0) &&
            decide (pm.1.getD 4 0 ≠ pm.1.getD 5 0) &&
            !(pm.2.all (fun x => decide (x = 0))))).map Prod.snd ∧
    List.Sublist (_discard_null_prisms prisms mags).1.rows prisms.rows ∧
    List.Sublist (_discard_null_prisms prisms mags).2.rows mags.rows := by
  have hfil : ((prismPairs prisms mags).filter (fun pm =>
      decide (pm.1.getD 0 0 ≠ pm.1.getD 1 0) &&
      decide (pm.1.getD 2 0 ≠ pm.1.getD 3 0) &&
      decide (pm.1.getD 4 0 ≠ pm.1.getD 5 0) &&
      !(pm.2.all (fun x => decide (x = 0)))))
      = survivingPairs prisms mags := by
    unfold survivingPairs
    apply List.filter_congr
    intro pm _
    exact keep_pred_eq pm.1 pm.2
  rw [discard_eq_filter prisms mags hrows, hfil]
  refine ⟨rfl, rfl, ?_, ?_⟩
  · have h1 : List.Sublist (survivingPairs prisms mags)
        (prismPairs prisms mags) := List.filter_sublist _
    have h2 := h1.map Prod.fst
    have h3 : (prismPairs prisms mags).map Prod.fst = prisms.rows := by
      unfold prismPairs
      exact List.map_fst_zip _ _ (le_of_eq hrows.symm)
    rw [h3] at h2
    exact h2
  · have h1 : List.Sublist (survivingPairs prisms mags)
        (prismPairs prisms mags) := List.filter_sublist _
    have h2 := h1.map Prod.snd
    have h3 : (prismPairs prisms mags).map Prod.snd = mags.rows := by
      unfold prismPairs
      exact List.map_snd_zip _ _ (le_of_eq hrows)
    rw [h3] at h2
    exact h2

theorem discard_null_prisms_spec_witness :
    ((⟨3, [[1, 0, 0], [1, 0, 0], [0, 0, 0]]⟩ : Array2).rows.length
      = (⟨6, [[0, 1, 0, 1, 0, 1], [2, 2, 0, 1, 0, 1], [0, 1, 0, 1, 0, 1]]⟩
          : Array2).rows.length) ∧
    (_discard_null_prisms
        ⟨6, [[0, 1, 0, 1, 0, 1], [2, 2, 0, 1, 0, 1], [0, 1, 0, 1, 0, 1]]⟩
        ⟨3, [[1, 0, 0], [1, 0, 0], [0, 0, 0]]⟩).1.rows
      = [[0, 1, 0, 1, 0, 1]] ∧
    (_discard_null_prisms
        ⟨6, [[0, 1, 0, 1, 0, 1], [2, 2, 0, 1, 0, 1], [0, 1, 0, 1, 0, 1]]⟩
        ⟨3, [[1, 0, 0], [1, 0, 0], [0, 0, 0]]⟩).2.rows
      = [[1, 0, 0]] := by
  have h := discard_null_prisms_spec
    ⟨6, [[0, 1, 0, 1, 0, 1], [2, 2, 0, 1, 0, 1], [0, 1, 0, 1, 0, 1]]⟩
    ⟨3, [[1, 0, 0], [1, 0, 0], [0, 0, 0]]⟩ rfl
  refine ⟨rfl, ?_, ?_⟩
  · rw [h.1]
    rfl
  · rw [h.2.1]
    rfl

theorem foldl_id {α : Type} (xs : List ℕ) (a : α) :
    xs.foldl (fun acc _ => acc) a = a := by
  induction xs generalizing a with
  | nil => rfl
  | cons hd tl ih => simpa using ih a

theorem innerComponentLoop_nil (g : ComponentFn) (ce cn cu : List ℚ)
    (mags : List (List ℚ)) (l : ℕ) (acc : List ℚ) :
    innerComponentLoop g ce cn cu [] mags l acc = acc := rfl

theorem jit_component_nil (g : ComponentFn) (ce cn cu : List ℚ)
    (mags : List (List ℚ)) (result : List ℚ) :
    _jit_prism_magnetic_component g ce cn cu [] mags result = result := by
  unfold _jit_prism_magnetic_component
  simp only [innerComponentLoop_nil]
  exact foldl_id _ _

theorem jit_component_parallel_nil (g : ComponentFn) (ce cn cu : List ℚ)
    (mags : List (List ℚ)) (size : ℕ) :
    _jit_prism_magnetic_component_parallel g ce cn cu [] mags
        (List.replicate size (0 : ℚ))
      = List.replicate size 0 := by
  unfold _jit_prism_magnetic_component_parallel
  simp only [innerComponentLoop_nil, ite_self, List.length_replicate]
  apply List.ext_getElem
  · simp
  · intro i h1 h2
    simp only [List.getElem_map, List.getElem_range, List.getElem_replicate]
    rw [getD_replicate_lt]
    rw [List.length_replicate] at h2
    exact h2

/-- C6 counterexample: a one-prism model whose prism is null (west = east =
0, zero volume) and row-aligned with a well-formed magnetization vector, but
whose vertical bounds are inverted (bottom = 2 > top = 1).  Both public entry
points raise the geometry validation error instead of returning zero, so an
all-null model does not always return "exactly zero without raising an
error". -/
theorem all_null_model_error_counterexample :
    prismPairs nullBadPrisms nullBadMags = [([0, 0, 0, 1, 2, 1], [1, 2, 3])] ∧
    isNullPair [0, 0, 0, 1, 2, 1] [1, 2, 3] = true ∧
    prism_magnetic cexConstField (scalarCoord, scalarCoord, scalarCoord)
        nullBadPrisms nullBadMags false false
      = Except.error (PrismError.invalidGeometry 0 2) ∧
    prism_magnetic_component (projE cexConstField) (projN cexConstField)
        (projU cexConstField) (scalarCoord, scalarCoord, scalarCoord)
        nullBadPrisms nullBadMags "easting" false false
      = Except.error (PrismError.invalidGeometry 0 2) := by
  have hchk : (if (false : Bool) then Except.ok ()
      else _run_sanity_checks nullBadPrisms nullBadMags)
      = Except.error (PrismError.invalidGeometry 0 2) := by
    norm_num [_run_sanity_checks, _check_prisms, checkPrismsFrom,
      checkPrismRowDim, nullBadPrisms, nullBadMags, List.getD]
  refine ⟨rfl, rfl, ?_, ?_⟩
  · exact prism_magnetic_check_err cexConstField scalarCoord scalarCoord
      scalarCoord nullBadPrisms nullBadMags false false []
      (PrismError.invalidGeometry 0 2) rfl hchk
  · exact prism_magnetic_component_check_err (projE cexConstField)
      (projN cexConstField) (projU cexConstField) scalarCoord scalarCoord
      scalarCoord nullBadPrisms nullBadMags "easting" (projE cexConstField)
      false false [] (PrismError.invalidGeometry 0 2) rfl
      (sel_easting _ _ _) hchk

/-- C6 amended: for every set of observation points, a model with zero prisms
or one in which every prism is null (zero volume or all-zero magnetization)
makes `prism_magnetic` and `prism_magnetic_component` return exactly zero at
every observation point without raising an error, provided the model passes
the sanity checks (or the checks are disabled). -/
theorem null_model_zero_field (f : FieldFn) (ge gn gu : ComponentFn)
    (c1 c2 c3 : NDArray) (prisms mags : Array2) (comp : String) (g : ComponentFn)
    (par dc : Bool) (castShape : List ℕ)
    (hb : broadcastShapes3 c1.shape c2.shape c3.shape = some castShape)
    (hrows : mags.rows.length = prisms.rows.length)
    (hnull : ∀ pm ∈ prismPairs prisms mags, isNullPair pm.1 pm.2 = true)
    (hchk : (if dc then Except.ok () else _run_sanity_checks prisms mags)
      = Except.ok ())
    (hsel : _get_magnetic_forward_function ge gn gu comp = Except.ok g) :
    prism_magnetic f (c1, c2, c3) prisms mags par dc
      = Except.ok
          (⟨castShape, List.replicate castShape.prod 0⟩,
           ⟨castShape, List.replicate castShape.prod 0⟩,
           ⟨castShape, List.replicate castShape.prod 0⟩) ∧
    prism_magnetic_component ge gn gu (c1, c2, c3) prisms mags comp par dc
      = Except.ok ⟨castShape, List.replicate castShape.prod 0⟩ := by
  have hsurv : survivingPairs prisms mags = [] := by
    unfold survivingPairs
    rw [List.filter_eq_nil]
    intro pm hpm
    simp [hnull pm hpm]
  have hdis := discard_eq_filter prisms mags hrows
  rw [hsurv] at hdis
  simp only [List.map_nil] at hdis
  have hscale : (List.replicate castShape.prod (0 : ℚ)).map
      (fun x => x * 1000000000) = List.replicate castShape.prod 0 := by
    rw [List.map_replicate]
    norm_num
  constructor
  · rw [prism_magnetic_eq_ok f c1 c2 c3 prisms mags par dc castShape hb hchk,
      hdis]
    cases par
    · simp only [Bool.false_eq_true, if_false, jit_field_serial_eq,
        jit_field_eq_components, jit_component_nil]
      rw [hscale]
    · simp only [if_true, jit_field_parallel_eq_components,
        jit_component_parallel_nil]
      rw [hscale]
  · rw [prism_magnetic_component_eq_ok ge gn gu c1 c2 c3 prisms mags comp g
      par dc castShape hb hsel hchk, hdis]
    cases par
    · simp only [Bool.false_eq_true, if_false, jit_component_serial_eq,
        jit_component_nil]
      rw [hscale]
    · simp only [if_true, jit_component_parallel_nil]
      rw [hscale]

theorem null_model_zero_field_witness :
    (if (false : Bool) then Except.ok ()
        else _run_sanity_checks ⟨6, [[0, 0, 0, 1, 0, 1]]⟩ ⟨3, [[1, 2, 3]]⟩)
      = Except.ok () ∧
    prism_magnetic wField (scalarCoord, scalarCoord, scalarCoord)
        ⟨6, [[0, 0, 0, 1, 0, 1]]⟩ ⟨3, [[1, 2, 3]]⟩ false false
      = Except.ok (⟨[], [0]⟩, ⟨[], [0]⟩, ⟨[], [0]⟩) ∧
    prism_magnetic_component (projE wField) (projN wField) (projU wField)
        (scalarCoord, scalarCoord, scalarCoord)
        ⟨6, [[0, 0, 0, 1, 0, 1]]⟩ ⟨3, [[1, 2, 3]]⟩ "upward" false false
      = Except.ok ⟨[], [0]⟩ := by
  have hchk : (if (false : Bool) then Except.ok ()
      else _run_sanity_checks ⟨6, [[0, 0, 0, 1, 0, 1]]⟩ ⟨3, [[1, 2, 3]]⟩)
      = Except.ok () := by
    norm_num [_run_sanity_checks, _check_prisms, checkPrismsFrom,
      checkPrismRowDim, List.getD]
  have h := null_model_zero_field wField (projE wField) (projN wField)
    (projU wField) scalarCoord scalarCoord scalarCoord
    ⟨6, [[0, 0, 0, 1, 0, 1]]⟩ ⟨3, [[1, 2, 3]]⟩ "upward" (projU wField)
    false false [] rfl rfl
    (by intro pm hpm; simp only [prismPairs, List.zip_cons_cons,
      List.zip_nil_right, List.mem_singleton] at hpm; subst hpm; rfl)
    hchk (sel_upward _ _ _)
  exact ⟨hchk, h.1, h.2⟩

/-- C7: with validation enabled, the sanity check raises a shape-mismatch
error reporting both counts whenever the magnetization row count differs from
the prism row count, and raises a shape-mismatch error reporting the actual
column count whenever the magnetization column count is not 3; both public
entry points then return that error, before any field computation and with no
partial result. -/
theorem run_sanity_checks_shape_mismatch (f : FieldFn) (ge gn gu : ComponentFn)
    (c1 c2 c3 : NDArray) (prisms mags : Array2) (comp : String) (g : ComponentFn)
    (par : Bool) (castShape : List ℕ)
    (hb : broadcastShapes3 c1.shape c2.shape c3.shape = some castShape)
    (hsel : _get_magnetic_forward_function ge gn gu comp = Except.ok g) :
    (mags.rows.length ≠ prisms.rows.length →
      _run_sanity_checks prisms mags
        = Except.error
            (PrismError.shapeMismatchRows mags.rows.length prisms.rows.length) ∧
      prism_magnetic f (c1, c2, c3) prisms mags par false
        = Except.error
            (PrismError.shapeMismatchRows mags.rows.length prisms.rows.length) ∧
      prism_magnetic_component ge gn gu (c1, c2, c3) prisms mags comp par false
        = Except.error
            (PrismError.shapeMismatchRows mags.rows.length prisms.rows.length)) ∧
    (mags.rows.length = prisms.rows.length → mags.ncols ≠ 3 →
      _run_sanity_checks prisms mags
        = Except.error (PrismError.shapeMismatchCols mags.ncols) ∧
      prism_magnetic f (c1, c2, c3) prisms mags par false
        = Except.error (PrismError.shapeMismatchCols mags.ncols) ∧
      prism_magnetic_component ge gn gu (c1, c2, c3) prisms mags comp par false
        = Except.error (PrismError.shapeMismatchCols mags.ncols)) := by
  constructor
  · intro hne
    have hchk : _run_sanity_checks prisms mags
        = Except.error
            (PrismError.shapeMismatchRows mags.rows.length prisms.rows.length) := by
      unfold _run_sanity_checks
      rw [if_pos hne]
    have hchk2 : (if (false : Bool) then Except.ok ()
        else _run_sanity_checks prisms mags)
        = Except.error
            (PrismError.shapeMismatchRows mags.rows.length prisms.rows.length) := by
      simpa using hchk
    exact ⟨hchk,
      prism_magnetic_check_err f c1 c2 c3 prisms mags par false castShape _ hb
        hchk2,
      prism_magnetic_component_check_err ge gn gu c1 c2 c3 prisms mags comp g
        par false castShape _ hb hsel hchk2⟩
  · intro heq hne
    have hchk : _run_sanity_checks prisms mags
        = Except.error (PrismError.shapeMismatchCols mags.ncols) := by
      unfold _run_sanity_checks
      rw [if_neg (by simp [heq]), if_pos hne]
    have hchk2 : (if (false : Bool) then Except.ok ()
        else _run_sanity_checks prisms mags)
        = Except.error (PrismError.shapeMismatchCols mags.ncols) := by
      simpa using hchk
    exact ⟨hchk,
      prism_magnetic_check_err f c1 c2 c3 prisms mags par false castShape _ hb
        hchk2,
      prism_magnetic_component_check_err ge gn gu c1 c2 c3 prisms mags comp g
        par false castShape _ hb hsel hchk2⟩

theorem run_sanity_checks_shape_mismatch_witness :
    ((2 : ℕ) ≠ 1 ∧
      prism_magnetic wField (scalarCoord, scalarCoord, scalarCoord) cexPrisms
          ⟨3, [[1, 0, 0], [2, 0, 0]]⟩ false false
        = Except.error (PrismError.shapeMismatchRows 2 1)) ∧
    ((2 : ℕ) ≠ 3 ∧
      prism_magnetic_component (projE wField) (projN wField) (projU wField)
          (scalarCoord, scalarCoord, scalarCoord) cexPrisms ⟨2, [[1, 0]]⟩
          "easting" false false
        = Except.error (PrismError.shapeMismatchCols 2)) := by
  constructor
  · have h := (run_sanity_checks_shape_mismatch wField (projE wField)
      (projN wField) (projU wField) scalarCoord scalarCoord scalarCoord
      cexPrisms ⟨3, [[1, 0, 0], [2, 0, 0]]⟩ "easting" (projE wField) false []
      rfl (sel_easting _ _ _)).1 (by norm_num [cexPrisms])
    exact ⟨by norm_num, h.2.1⟩
  · have h := (run_sanity_checks_shape_mismatch wField (projE wField)
      (projN wField) (projU wField) scalarCoord scalarCoord scalarCoord
      cexPrisms ⟨2, [[1, 0]]⟩ "easting" (projE wField) false []
      rfl (sel_easting _ _ _)).2 (by norm_num [cexPrisms]) (by norm_num)
    exact ⟨by norm_num, h.2.2⟩

/-- C8: the component selector maps exactly the names "easting", "northing"
and "upward" to the corresponding external single-component function, and for
every other string raises an invalid-component error carrying the offending
value; in `prism_magnetic_component` this resolution happens before the
shape/geometry validation, so an arbitrary (even invalid) model still yields
the invalid-component error. -/
theorem get_magnetic_forward_function_spec (ge gn gu : ComponentFn)
    (c1 c2 c3 : NDArray) (prisms mags : Array2) (comp : String) (par dc : Bool)
    (castShape : List ℕ)
    (hb : broadcastShapes3 c1.shape c2.shape c3.shape = some castShape)
    (hc : comp ≠ "easting" ∧ comp ≠ "northing" ∧ comp ≠ "upward") :
    _get_magnetic_forward_function ge gn gu "easting" = Except.ok ge ∧
    _get_magnetic_forward_function ge gn gu "northing" = Except.ok gn ∧
    _get_magnetic_forward_function ge gn gu "upward" = Except.ok gu ∧
    _get_magnetic_forward_function ge gn gu comp
      = Except.error (PrismError.invalidComponent comp) ∧
    prism_magnetic_component ge gn gu (c1, c2, c3) prisms mags comp par dc
      = Except.error (PrismError.invalidComponent comp) := by
  have hsel : _get_magnetic_forward_function ge gn gu comp
      = Except.error (PrismError.invalidComponent comp) := by
    unfold _get_magnetic_forward_function
    rw [if_pos hc]
  exact ⟨sel_easting _ _ _, sel_northing _ _ _, sel_upward _ _ _, hsel,
    prism_magnetic_component_sel_err ge gn gu c1 c2 c3 prisms mags comp par dc
      castShape (PrismError.invalidComponent comp) hb hsel⟩

theorem get_magnetic_forward_function_spec_witness :
    (("vertical" : String) ≠ "easting" ∧ ("vertical" : String) ≠ "northing" ∧
      ("vertical" : String) ≠ "upward") ∧
    _get_magnetic_forward_function (projE wField) (projN wField) (projU wField)
        "vertical"
      = Except.error (PrismError.invalidComponent "vertical") ∧
    prism_magnetic_component (projE wField) (projN wField) (projU wField)
        (scalarCoord, scalarCoord, scalarCoord) cexPrisms ⟨3, []⟩ "vertical"
        false false
      = Except.error (PrismError.invalidComponent "vertical") := by
  have hc : ("vertical" : String) ≠ "easting" ∧
      ("vertical" : String) ≠ "northing" ∧
      ("vertical" : String) ≠ "upward" := by
    refine ⟨?_, ?_, ?_⟩ <;> decide
  have h := get_magnetic_forward_function_spec (projE wField) (projN wField)
    (projU wField) scalarCoord scalarCoord scalarCoord cexPrisms ⟨3, []⟩
    "vertical" false false [] rfl hc
  exact ⟨hc, h.2.2.2.1, h.2.2.2.2⟩

theorem checkPrismsFrom_append_ok (xs : List (List ℚ)) (p0 : List ℚ) (i : ℕ)
    (hp : checkPrismRowDim p0 = none) :
    checkPrismsFrom (xs ++ [p0]) i = checkPrismsFrom xs i := by
  induction xs generalizing i with
  | nil => simp [checkPrismsFrom, hp]
  | cons q rest ih =>
    simp only [List.cons_append, checkPrismsFrom]
    cases hq : checkPrismRowDim q with
    | none => simp [hq, ih]
    | some d => simp [hq]

theorem run_sanity_checks_append (prisms mags : Array2) (p0 m0 : List ℚ)
    (hrows : mags.rows.length = prisms.rows.length)
    (hp : checkPrismRowDim p0 = none) :
    _run_sanity_checks ⟨prisms.ncols, prisms.rows ++ [p0]⟩
        ⟨mags.ncols, mags.rows ++ [m0]⟩
      = _run_sanity_checks prisms mags := by
  unfold _run_sanity_checks _check_prisms
  simp only [List.length_append, List.length_singleton]
  rw [if_neg (show ¬(mags.rows.length + 1 ≠ prisms.rows.length + 1) by
    simp [hrows])]
  rw [if_neg (show ¬(mags.rows.length ≠ prisms.rows.length) by simp [hrows])]
  by_cases hc : mags.ncols ≠ 3
  · rw [if_pos hc, if_pos hc]
  · rw [if_neg hc, if_neg hc]
    exact checkPrismsFrom_append_ok _ _ _ hp

theorem survivingPairs_append_null (prisms mags : Array2) (p0 m0 : List ℚ)
    (hrows : mags.rows.length = prisms.rows.length)
    (hnull : isNullPair p0 m0 = true) :
    survivingPairs ⟨prisms.ncols, prisms.rows ++ [p0]⟩
        ⟨mags.ncols, mags.rows ++ [m0]⟩
      = survivingPairs prisms mags := by
  unfold survivingPairs prismPairs
  simp only
  rw [List.zip_append hrows.symm, List.filter_append]
  simp [hnull]

theorem discard_append_null (prisms mags : Array2) (p0 m0 : List ℚ)
    (hrows : mags.rows.length = prisms.rows.length)
    (hnull : isNullPair p0 m0 = true) :
    _discard_null_prisms ⟨prisms.ncols, prisms.rows ++ [p0]⟩
        ⟨mags.ncols, mags.rows ++ [m0]⟩
      = _discard_null_prisms prisms mags := by
  rw [discard_eq_filter ⟨prisms.ncols, prisms.rows ++ [p0]⟩
      ⟨mags.ncols, mags.rows ++ [m0]⟩ (by simp [hrows]),
    discard_eq_filter prisms mags hrows,
    survivingPairs_append_null prisms mags p0 m0 hrows hnull]

/-- C10: null-prism filtering is applied on every call, whatever the value of
the validation-bypass flag: appending a null row pair (zero volume or all-zero
magnetization; with ordering-valid bounds so that the geometry check is
unaffected) to a row-aligned model leaves the result of `prism_magnetic` and
`prism_magnetic_component` unchanged, in particular with
`disable_checks = true`. -/
theorem null_prism_filter_unconditional (f : FieldFn) (ge gn gu : ComponentFn)
    (coords : NDArray × NDArray × NDArray) (prisms mags : Array2)
    (comp : String) (par dc : Bool) (p0 m0 : List ℚ)
    (hrows : mags.rows.length = prisms.rows.length)
    (hnull : isNullPair p0 m0 = true)
    (hp : checkPrismRowDim p0 = none) :
    prism_magnetic f coords ⟨prisms.ncols, prisms.rows ++ [p0]⟩
        ⟨mags.ncols, mags.rows ++ [m0]⟩ par dc
      = prism_magnetic f coords prisms mags par dc ∧
    prism_magnetic_component ge gn gu coords ⟨prisms.ncols, prisms.rows ++ [p0]⟩
        ⟨mags.ncols, mags.rows ++ [m0]⟩ comp par dc
      = prism_magnetic_component ge gn gu coords prisms mags comp par dc := by
  obtain ⟨c1, c2, c3⟩ := coords
  have hsan := run_sanity_checks_append prisms mags p0 m0 hrows hp
  have hdis := discard_append_null prisms mags p0 m0 hrows hnull
  have hchkeq : (if dc then Except.ok ()
      else _run_sanity_checks ⟨prisms.ncols, prisms.rows ++ [p0]⟩
        ⟨mags.ncols, mags.rows ++ [m0]⟩)
      = (if dc then Except.ok () else _run_sanity_checks prisms mags) := by
    cases dc
    · simpa using hsan
    · simp
  constructor
  · rcases hb : broadcastShapes3 c1.shape c2.shape c3.shape with _ | castShape
    · rw [prism_magnetic_broadcast_err f c1 c2 c3 _ _ par dc hb,
        prism_magnetic_broadcast_err f c1 c2 c3 prisms mags par dc hb]
    · rcases hchk : (if dc then Except.ok () else _run_sanity_checks prisms mags)
        with e | u
      · rw [prism_magnetic_check_err f c1 c2 c3 _ _ par dc castShape e hb
          (hchkeq.trans hchk),
          prism_magnetic_check_err f c1 c2 c3 prisms mags par dc castShape e hb
          hchk]
      · cases u
        rw [prism_magnetic_eq_ok f c1 c2 c3 _ _ par dc castShape hb
          (hchkeq.trans hchk),
          prism_magnetic_eq_ok f c1 c2 c3 prisms mags par dc castShape hb hchk,
          hdis]
  · rcases hb : broadcastShapes3 c1.shape c2.shape c3.shape with _ | castShape
    · rw [prism_magnetic_component_broadcast_err ge gn gu c1 c2 c3 _ _ comp
        par dc hb,
        prism_magnetic_component_broadcast_err ge gn gu c1 c2 c3 prisms mags
        comp par dc hb]
    · rcases hsel : _get_magnetic_forward_function ge gn gu comp with e | g
      · rw [prism_magnetic_component_sel_err ge gn gu c1 c2 c3 _ _ comp par dc
          castShape e hb hsel,
          prism_magnetic_component_sel_err ge gn gu c1 c2 c3 prisms mags comp
          par dc castShape e hb hsel]
      · rcases hchk : (if dc then Except.ok ()
            else _run_sanity_checks prisms mags) with e | u
        · rw [prism_magnetic_component_check_err ge gn gu c1 c2 c3 _ _ comp g
            par dc castShape e hb hsel (hchkeq.trans hchk),
            prism_magnetic_component_check_err ge gn gu c1 c2 c3 prisms mags
            comp g par dc castShape e hb hsel hchk]
        · cases u
          rw [prism_magnetic_component_eq_ok ge gn gu c1 c2 c3 _ _ comp g par dc
            castShape hb hsel (hchkeq.trans hchk),
            prism_magnetic_component_eq_ok ge gn gu c1 c2 c3 prisms mags comp g
            par dc castShape hb hsel hchk,
            hdis]

theorem null_prism_filter_unconditional_witness :
    isNullPair [3, 3, 0, 1, 0, 1] [5, 5, 5] = true ∧
    checkPrismRowDim [3, 3, 0, 1, 0, 1] = none ∧
    prism_magnetic wField (scalarCoord, scalarCoord, scalarCoord)
        ⟨6, [[0, 1, 0, 1, 0, 1], [3, 3, 0, 1, 0, 1]]⟩
        ⟨3, [[1, 0, 0], [5, 5, 5]]⟩ false true
      = prism_magnetic wField (scalarCoord, scalarCoord, scalarCoord)
          cexPrisms cexMags false true ∧
    prism_magnetic_component (projE wField) (projN wField) (projU wField)
        (scalarCoord, scalarCoord, scalarCoord)
        ⟨6, [[0, 1, 0, 1, 0, 1], [3, 3, 0, 1, 0, 1]]⟩
        ⟨3, [[1, 0, 0], [5, 5, 5]]⟩ "easting" false true
      = prism_magnetic_component (projE wField) (projN wField) (projU wField)
          (scalarCoord, scalarCoord, scalarCoord) cexPrisms cexMags "easting"
          false true := by
  have hnull : isNullPair [3, 3, 0, 1, 0, 1] [5, 5, 5] = true := rfl
  have hp : checkPrismRowDim [3, 3, 0, 1, 0, 1] = none := by
    norm_num [checkPrismRowDim, List.getD]
  have h := null_prism_filter_unconditional wField (projE wField)
    (projN wField) (projU wField) (scalarCoord, scalarCoord, scalarCoord)
    cexPrisms cexMags "easting" false true [3, 3, 0, 1, 0, 1] [5, 5, 5]
    rfl hnull hp
  exact ⟨hnull, hp, h.1, h.2⟩

theorem getD_set_ne_gen {α : Type} (xs : List α) (d : α) (i j : ℕ) (v : α)
    (h : j ≠ i) : (xs.set i v).getD j d = xs.getD j d := by
  simp [List.getD, List.getElem?_set, Ne.symm h]

theorem getD_append_lt {α : Type} (xs ys : List α) (d : α) (j : ℕ)
    (h : j < xs.length) : (xs ++ ys).getD j d = xs.getD j d := by
  simp [List.getD, List.getElem?_append, h]

theorem prism_magnetic_store_eq_ok (f : FieldFn) (s : Store)
    (ice icn icu ip im ncolsP ncolsM : ℕ) (shapeE shapeN shapeU : List ℕ)
    (par dc : Bool) (castShape : List ℕ)
    (hb : broadcastShapes3 shapeE shapeN shapeU = some castShape)
    (hchk : (if dc then Except.ok () else
      _run_sanity_checks ⟨ncolsP, readMat s ip⟩ ⟨ncolsM, readMat s im⟩)
      = Except.ok ()) :
    prism_magnetic_store f s ice icn icu ip im ncolsP ncolsM shapeE shapeN
        shapeU par dc
      = Except.ok (prism_magnetic_store_run f s ice icn icu ip im ncolsP ncolsM
          castShape par) := by
  unfold prism_magnetic_store prism_magnetic_store_run
  rw [hb, hchk]

theorem prism_magnetic_store_run_ids (f : FieldFn) (s : Store)
    (ice icn icu ip im ncolsP ncolsM : ℕ) (castShape : List ℕ) (par : Bool) :
    (prism_magnetic_store_run f s ice icn icu ip im ncolsP ncolsM castShape
        par).2.1 = s.oneD.length ∧
    (prism_magnetic_store_run f s ice icn icu ip im ncolsP ncolsM castShape
        par).2.2.1 = s.oneD.length + 1 ∧
    (prism_magnetic_store_run f s ice icn icu ip im ncolsP ncolsM castShape
        par).2.2.2 = s.oneD.length + 2 := by
  unfold prism_magnetic_store_run
  simp [allocVec, allocMat]

theorem prism_magnetic_store_run_frame (f : FieldFn) (s : Store)
    (ice icn icu ip im ncolsP ncolsM : ℕ) (castShape : List ℕ) (par : Bool) :
    (∀ j, j < s.oneD.length →
      readVec (prism_magnetic_store_run f s ice icn icu ip im ncolsP ncolsM
        castShape par).1 j = readVec s j) ∧
    (∀ j, j < s.twoD.length →
      readMat (prism_magnetic_store_run f s ice icn icu ip im ncolsP ncolsM
        castShape par).1 j = readMat s j) := by
  unfold prism_magnetic_store_run
  constructor
  · intro j hj
    have ha1 : j < (s.oneD ++ [List.replicate castShape.prod (0 : ℚ)]
        ++ [List.replicate castShape.prod (0 : ℚ)]).length := by
      simp only [List.length_append, List.length_singleton]
      omega
    have ha2 : j < (s.oneD ++ [List.replicate castShape.prod (0 : ℚ)]).length := by
      simp only [List.length_append, List.length_singleton]
      omega
    simp only [allocVec, allocMat, writeVec, readVec, List.length_append,
      List.length_singleton]
    rw [getD_set_ne_gen _ _ _ _ _ (by omega), getD_set_ne_gen _ _ _ _ _ (by omega),
      getD_set_ne_gen _ _ _ _ _ (by omega), getD_set_ne_gen _ _ _ _ _ (by omega),
      getD_set_ne_gen _ _ _ _ _ (by omega), getD_set_ne_gen _ _ _ _ _ (by omega),
      getD_append_lt _ _ _ _ ha1, getD_append_lt _ _ _ _ ha2,
      getD_append_lt _ _ _ _ hj]
  · intro j hj
    have ha1 : j < (s.twoD ++ [(_discard_null_prisms
        ⟨ncolsP, s.twoD.getD ip []⟩ ⟨ncolsM, s.twoD.getD im []⟩).1.rows]).length := by
      simp only [List.length_append, List.length_singleton]
      omega
    simp only [allocVec, allocMat, writeVec, readMat]
    rw [getD_append_lt _ _ _ _ ha1, getD_append_lt _ _ _ _ hj]

theorem prism_magnetic_store_broadcast_err (f : FieldFn) (s : Store)
    (ice icn icu ip im ncolsP ncolsM : ℕ) (shapeE shapeN shapeU : List ℕ)
    (par dc : Bool)
    (hb : broadcastShapes3 shapeE shapeN shapeU = none) :
    prism_magnetic_store f s ice icn icu ip im ncolsP ncolsM shapeE shapeN
        shapeU par dc
      = Except.error PrismError.broadcastMismatch := by
  unfold prism_magnetic_store
  rw [hb]

theorem prism_magnetic_store_check_err (f : FieldFn) (s : Store)
    (ice icn icu ip im ncolsP ncolsM : ℕ) (shapeE shapeN shapeU : List ℕ)
    (par dc : Bool) (castShape : List ℕ) (e : PrismError)
    (hb : broadcastShapes3 shapeE shapeN shapeU = some castShape)
    (hchk : (if dc then Except.ok () else
      _run_sanity_checks ⟨ncolsP, readMat s ip⟩ ⟨ncolsM, readMat s im⟩)
      = Except.error e) :
    prism_magnetic_store f s ice icn icu ip im ncolsP ncolsM shapeE shapeN
        shapeU par dc
      = Except.error e := by
  unfold prism_magnetic_store
  rw [hb, hchk]

theorem prism_magnetic_component_store_eq_ok (ge gn gu : ComponentFn)
    (s : Store) (ice icn icu ip im ncolsP ncolsM : ℕ)
    (shapeE shapeN shapeU : List ℕ) (comp : String) (g : ComponentFn)
    (par dc : Bool) (castShape : List ℕ)
    (hb : broadcastShapes3 shapeE shapeN shapeU = some castShape)
    (hsel : _get_magnetic_forward_function ge gn gu comp = Except.ok g)
    (hchk : (if dc then Except.ok () else
      _run_sanity_checks ⟨ncolsP, readMat s ip⟩ ⟨ncolsM, readMat s im⟩)
      = Except.ok ()) :
    prism_magnetic_component_store ge gn gu s ice icn icu ip im ncolsP ncolsM
        shapeE shapeN shapeU comp par dc
      = Except.ok (prism_magnetic_component_store_run g s ice icn icu ip im
          ncolsP ncolsM castShape par) := by
  unfold prism_magnetic_component_store prism_magnetic_component_store_run
  rw [hb, hsel, hchk]

theorem prism_magnetic_component_store_broadcast_err (ge gn gu : ComponentFn)
    (s : Store) (ice icn icu ip im ncolsP ncolsM : ℕ)
    (shapeE shapeN shapeU : List ℕ) (comp : String) (par dc : Bool)
    (hb : broadcastShapes3 shapeE shapeN shapeU = none) :
    prism_magnetic_component_store ge gn gu s ice icn icu ip im ncolsP ncolsM
        shapeE shapeN shapeU comp par dc
      = Except.error PrismError.broadcastMismatch := by
  unfold prism_magnetic_component_store
  rw [hb]

theorem prism_magnetic_component_store_sel_err (ge gn gu : ComponentFn)
    (s : Store) (ice icn icu ip im ncolsP ncolsM : ℕ)
    (shapeE shapeN shapeU : List ℕ) (comp : String) (par dc : Bool)
    (castShape : List ℕ) (e : PrismError)
    (hb : broadcastShapes3 shapeE shapeN shapeU = some castShape)
    (hsel : _get_magnetic_forward_function ge gn gu comp = Except.error e) :
    prism_magnetic_component_store ge gn gu s ice icn icu ip im ncolsP ncolsM
        shapeE shapeN shapeU comp par dc
      = Except.error e := by
  unfold prism_magnetic_component_store
  rw [hb, hsel]

theorem prism_magnetic_component_store_check_err (ge gn gu : ComponentFn)
    (s : Store) (ice icn icu ip im ncolsP ncolsM : ℕ)
    (shapeE shapeN shapeU : List ℕ) (comp : String) (g : ComponentFn)
    (par dc : Bool) (castShape : List ℕ) (e : PrismError)
    (hb : broadcastShapes3 shapeE shapeN shapeU = some castShape)
    (hsel : _get_magnetic_forward_function ge gn gu comp = Except.ok g)
    (hchk : (if dc then Except.ok () else
      _run_sanity_checks ⟨ncolsP, readMat s ip⟩ ⟨ncolsM, readMat s im⟩)
      = Except.error e) :
    prism_magnetic_component_store ge gn gu s ice icn icu ip im ncolsP ncolsM
        shapeE shapeN shapeU comp par dc
      = Except.error e := by
  unfold prism_magnetic_component_store
  rw [hb, hsel, hchk]

theorem prism_magnetic_component_store_run_ids (g : ComponentFn) (s : Store)
    (ice icn icu ip im ncolsP ncolsM : ℕ) (castShape : List ℕ) (par : Bool) :
    (prism_magnetic_component_store_run g s ice icn icu ip im ncolsP ncolsM
        castShape par).2 = s.oneD.length := by
  unfold prism_magnetic_component_store_run
  simp [allocVec, allocMat]

theorem prism_magnetic_component_store_run_frame (g : ComponentFn) (s : Store)
    (ice icn icu ip im ncolsP ncolsM : ℕ) (castShape : List ℕ) (par : Bool) :
    (∀ j, j < s.oneD.length →
      readVec (prism_magnetic_component_store_run g s ice icn icu ip im ncolsP
        ncolsM castShape par).1 j = readVec s j) ∧
    (∀ j, j < s.twoD.length →
      readMat (prism_magnetic_component_store_run g s ice icn icu ip im ncolsP
        ncolsM castShape par).1 j = readMat s j) := by
  unfold prism_magnetic_component_store_run
  constructor
  · intro j hj
    simp only [allocVec, allocMat, writeVec, readVec, List.length_append,
      List.length_singleton]
    rw [getD_set_ne_gen _ _ _ _ _ (by omega),
      getD_set_ne_gen _ _ _ _ _ (by omega), getD_append_lt _ _ _ _ hj]
  · intro j hj
    have ha1 : j < (s.twoD ++ [(_discard_null_prisms
        ⟨ncolsP, s.twoD.getD ip []⟩
        ⟨ncolsM, s.twoD.getD im []⟩).1.rows]).length := by
      simp only [List.length_append, List.length_singleton]
      omega
    simp only [allocVec, allocMat, writeVec, readMat]
    rw [getD_append_lt _ _ _ _ ha1, getD_append_lt _ _ _ _ hj]

/-- C9: the heap-explicit models of `prism_magnetic` and
`prism_magnetic_component` never mutate the caller's arrays: in both entry
points the null-prism filter produces fresh copies (boolean-mask selection
allocates), the kernels write only into freshly allocated zero-initialized
output cells, and the 1e9 scaling writes those same fresh cells.  Hence
every pre-existing cell of the heap holds its original value after either
call returns, and the returned output cells are fresh (their indices lie
beyond the caller's). -/
theorem prism_magnetic_no_input_mutation (f : FieldFn)
    (ge gn gu : ComponentFn) (s : Store)
    (ice icn icu ip im ncolsP ncolsM : ℕ) (shapeE shapeN shapeU : List ℕ)
    (comp : String) (par dc : Bool) (sf : Store) (ibe ibn ibu : ℕ)
    (sc : Store) (ires : ℕ)
    (hokF : prism_magnetic_store f s ice icn icu ip im ncolsP ncolsM shapeE
      shapeN shapeU par dc = Except.ok (sf, ibe, ibn, ibu))
    (hokC : prism_magnetic_component_store ge gn gu s ice icn icu ip im ncolsP
      ncolsM shapeE shapeN shapeU comp par dc = Except.ok (sc, ires)) :
    ((∀ j, j < s.oneD.length → readVec sf j = readVec s j) ∧
     (∀ j, j < s.twoD.length → readMat sf j = readMat s j) ∧
     s.oneD.length ≤ ibe ∧ s.oneD.length ≤ ibn ∧ s.oneD.length ≤ ibu) ∧
    ((∀ j, j < s.oneD.length → readVec sc j = readVec s j) ∧
     (∀ j, j < s.twoD.length → readMat sc j = readMat s j) ∧
     s.oneD.length ≤ ires) := by
  constructor
  · rcases hb : broadcastShapes3 shapeE shapeN shapeU with _ | castShape
    · rw [prism_magnetic_store_broadcast_err f s ice icn icu ip im ncolsP
        ncolsM shapeE shapeN shapeU par dc hb] at hokF
      exact absurd hokF (by simp)
    · rcases hchk : (if dc then Except.ok () else
          _run_sanity_checks ⟨ncolsP, readMat s ip⟩ ⟨ncolsM, readMat s im⟩)
        with e | u
      · rw [prism_magnetic_store_check_err f s ice icn icu ip im ncolsP ncolsM
          shapeE shapeN shapeU par dc castShape e hb hchk] at hokF
        exact absurd hokF (by simp)
      · cases u
        rw [prism_magnetic_store_eq_ok f s ice icn icu ip im ncolsP ncolsM
          shapeE shapeN shapeU par dc castShape hb hchk] at hokF
        injection hokF with h
        have h1 := congrArg Prod.fst h
        have h2 := congrArg (fun t : Store × ℕ × ℕ × ℕ => t.2.1) h
        have h3 := congrArg (fun t : Store × ℕ × ℕ × ℕ => t.2.2.1) h
        have h4 := congrArg (fun t : Store × ℕ × ℕ × ℕ => t.2.2.2) h
        simp only at h1 h2 h3 h4
        obtain ⟨hfr1, hfr2⟩ := prism_magnetic_store_run_frame f s ice icn icu
          ip im ncolsP ncolsM castShape par
        obtain ⟨hi1, hi2, hi3⟩ := prism_magnetic_store_run_ids f s ice icn icu
          ip im ncolsP ncolsM castShape par
        refine ⟨?_, ?_, ?_, ?_, ?_⟩
        · intro j hj
          rw [← h1]
          exact hfr1 j hj
        · intro j hj
          rw [← h1]
          exact hfr2 j hj
        · rw [← h2, hi1]
        · rw [← h3, hi2]
          omega
        · rw [← h4, hi3]
          omega
  · rcases hb : broadcastShapes3 shapeE shapeN shapeU with _ | castShape
    · rw [prism_magnetic_component_store_broadcast_err ge gn gu s ice icn icu
        ip im ncolsP ncolsM shapeE shapeN shapeU comp par dc hb] at hokC
      exact absurd hokC (by simp)
    · rcases hsel : _get_magnetic_forward_function ge gn gu comp with e | g
      · rw [prism_magnetic_component_store_sel_err ge gn gu s ice icn icu ip im
          ncolsP ncolsM shapeE shapeN shapeU comp par dc castShape e hb hsel]
          at hokC
        exact absurd hokC (by simp)
      · rcases hchk : (if dc then Except.ok () else
            _run_sanity_checks ⟨ncolsP, readMat s ip⟩ ⟨ncolsM, readMat s im⟩)
          with e | u
        · rw [prism_magnetic_component_store_check_err ge gn gu s ice icn icu
            ip im ncolsP ncolsM shapeE shapeN shapeU comp g par dc castShape e
            hb hsel hchk] at hokC
          exact absurd hokC (by simp)
        · cases u
          rw [prism_magnetic_component_store_eq_ok ge gn gu s ice icn icu ip im
            ncolsP ncolsM shapeE shapeN shapeU comp g par dc castShape hb hsel
            hchk] at hokC
          injection hokC with h
          have h1 := congrArg Prod.fst h
          have h2 := congrArg (fun t : Store × ℕ => t.2) h
          simp only at h1 h2
          obtain ⟨hfr1, hfr2⟩ := prism_magnetic_component_store_run_frame g s
            ice icn icu ip im ncolsP ncolsM castShape par
          have hid := prism_magnetic_component_store_run_ids g s ice icn icu
            ip im ncolsP ncolsM castShape par
          refine ⟨?_, ?_, ?_⟩
          · intro j hj
            rw [← h1]
            exact hfr1 j hj
          · intro j hj
            rw [← h1]
            exact hfr2 j hj
          · rw [← h2, hid]

theorem prism_magnetic_no_input_mutation_witness :
    prism_magnetic_store wField wStore 0 1 2 0 1 6 3 [1] [1] [1] false false
      = Except.ok (wStoreFinal, 3, 4, 5) ∧
    prism_magnetic_component_store (projE wField) (projN wField) (projU wField)
        wStore 0 1 2 0 1 6 3 [1] [1] [1] "easting" false false
      = Except.ok (wStoreFinalC, 3) ∧
    readVec wStoreFinal 0 = readVec wStore 0 ∧
    readVec wStoreFinal 1 = readVec wStore 1 ∧
    readVec wStoreFinal 2 = readVec wStore 2 ∧
    readMat wStoreFinal 0 = readMat wStore 0 ∧
    readMat wStoreFinal 1 = readMat wStore 1 ∧
    readVec wStoreFinalC 0 = readVec wStore 0 ∧
    readVec wStoreFinalC 1 = readVec wStore 1 ∧
    readVec wStoreFinalC 2 = readVec wStore 2 ∧
    readMat wStoreFinalC 0 = readMat wStore 0 ∧
    readMat wStoreFinalC 1 = readMat wStore 1 ∧
    wStore.oneD.length ≤ 3 := by
  have hchk : (if (false : Bool) then Except.ok () else
      _run_sanity_checks ⟨6, readMat wStore 0⟩ ⟨3, readMat wStore 1⟩)
      = Except.ok () := by
    norm_num [_run_sanity_checks, _check_prisms, checkPrismsFrom,
      checkPrismRowDim, readMat, wStore, List.getD]
  have hokF : prism_magnetic_store wField wStore 0 1 2 0 1 6 3 [1] [1] [1]
      false false = Except.ok (wStoreFinal, 3, 4, 5) := by
    rw [prism_magnetic_store_eq_ok wField wStore 0 1 2 0 1 6 3 [1] [1] [1]
      false false [1] rfl hchk]
    norm_num [prism_magnetic_store_run, allocVec, allocMat, writeVec, readVec,
      readMat, wStore, wStoreFinal, wField, _discard_null_prisms,
      zeroVolumeMask, nullMagnetizationMask, zeroVolumeRow, allZeroMagRow,
      maskSelect, _jit_prism_magnetic_field_serial, _jit_prism_magnetic_field,
      innerFieldLoop, fieldContribution, List.range_succ, List.getD]
  have hokC : prism_magnetic_component_store (projE wField) (projN wField)
      (projU wField) wStore 0 1 2 0 1 6 3 [1] [1] [1] "easting" false false
      = Except.ok (wStoreFinalC, 3) := by
    rw [prism_magnetic_component_store_eq_ok (projE wField) (projN wField)
      (projU wField) wStore 0 1 2 0 1 6 3 [1] [1] [1] "easting"
      (projE wField) false false [1] rfl (sel_easting _ _ _) hchk]
    norm_num [prism_magnetic_component_store_run, allocVec, allocMat, writeVec,
      readVec, readMat, wStore, wStoreFinalC, wField, projE,
      _discard_null_prisms, zeroVolumeMask, nullMagnetizationMask,
      zeroVolumeRow, allZeroMagRow, maskSelect,
      _jit_prism_magnetic_component_serial, _jit_prism_magnetic_component,
      innerComponentLoop, componentContribution, List.range_succ, List.getD]
  have h := prism_magnetic_no_input_mutation wField (projE wField)
    (projN wField) (projU wField) wStore 0 1 2 0 1 6 3 [1] [1] [1] "easting"
    false false wStoreFinal 3 4 5 wStoreFinalC 3 hokF hokC
  exact ⟨hokF, hokC, h.1.1 0 (by norm_num [wStore]),
    h.1.1 1 (by norm_num [wStore]), h.1.1 2 (by norm_num [wStore]),
    h.1.2.1 0 (by norm_num [wStore]), h.1.2.1 1 (by norm_num [wStore]),
    h.2.1 0 (by norm_num [wStore]), h.2.1 1 (by norm_num [wStore]),
    h.2.1 2 (by norm_num [wStore]), h.2.2.1 0 (by norm_num [wStore]),
    h.2.2.1 1 (by norm_num [wStore]), h.2.2.2⟩

theorem prism_magnetic_component_consistency_witness :
    prism_magnetic_component (projE wField) (projN wField) (projU wField)
        (scalarCoord, scalarCoord, scalarCoord) cexPrisms cexMags "easting"
        false false
      = (prism_magnetic wField (scalarCoord, scalarCoord, scalarCoord)
          cexPrisms cexMags false false).map (fun t => t.1) ∧
    prism_magnetic_component (projE wField) (projN wField) (projU wField)
        (scalarCoord, scalarCoord, scalarCoord) cexPrisms cexMags "northing"
        false false
      = (prism_magnetic wField (scalarCoord, scalarCoord, scalarCoord)
          cexPrisms cexMags false false).map (fun t => t.2.1) ∧
    prism_magnetic_component (projE wField) (projN wField) (projU wField)
        (scalarCoord, scalarCoord, scalarCoord) cexPrisms cexMags "upward"
        false false
      = (prism_magnetic wField (scalarCoord, scalarCoord, scalarCoord)
          cexPrisms cexMags false false).map (fun t => t.2.2) :=
  prism_magnetic_component_consistency wField (projE wField) (projN wField)
    (projU wField) (scalarCoord, scalarCoord, scalarCoord) cexPrisms cexMags
    false false
    (fun _ _ _ _ _ _ _ _ _ _ _ _ => rfl)
    (fun _ _ _ _ _ _ _ _ _ _ _ _ => rfl)
    (fun _ _ _ _ _ _ _ _ _ _ _ _ => rfl)
